import Mathlib

/-!
Verification of the build-plan synthesis engine of jvm-build-service
(`pkg/reconciler/dependencybuild/buildrecipeyaml.go`).

The Go code is shallowly embedded: Go strings are modeled as their
character sequences (`Str := List Char`; every string operation the code
performs — concatenation, slicing, `strings.ReplaceAll`, `strings.Split`,
`strings.TrimSpace`, `strings.LastIndex` — is byte-positional on ASCII
data, where characters and bytes coincide), Go `int`/`int64` as `Int`,
Kubernetes `resource.Quantity` as its exact rational value, and fallible
computations as `Option`.  The contents of the `go:embed` script files and
the helpers that live in packages outside this subsystem are inputs of the
engine; they are passed in explicitly (structure `Ext`).
-/

set_option maxRecDepth 100000

namespace JBS

/-- Go strings, modeled as character sequences. -/
abbrev Str := List Char

/-- Shorthand turning a Lean string literal into the Go string model. -/
def gs (s : String) : Str := s.data

/-- Whether `pat` is an initial segment of `s` (the test Go's
`strings.Replace` scan performs at each position). -/
def goHasPre : Str → Str → Bool
  | [], _ => true
  | _ :: _, [] => false
  | p :: ps, c :: cs => p = c && goHasPre ps cs

/-- `strings.Contains s pat`. -/
def goContains : Str → Str → Bool
  | [], pat => goHasPre pat []
  | c :: rest, pat => goHasPre pat (c :: rest) || goContains rest pat

/-- The scan of `strings.ReplaceAll` for a non-empty pattern
`p :: ps`, structurally recursive on a fuel bound (every call keeps
`fuel ≥ s.length`, so the zero-fuel case is never the deciding one): a
match at the current position consumes the pattern, anything else moves
one character. -/
def replaceAllAux (p : Char) (ps repl : Str) : Nat → Str → Str
  | _, [] => []
  | 0, s => s
  | fuel + 1, c :: rest =>
    if goHasPre (p :: ps) (c :: rest) then
      repl ++ replaceAllAux p ps repl fuel (List.drop (p :: ps).length (c :: rest))
    else
      c :: replaceAllAux p ps repl fuel rest

/-- `strings.ReplaceAll s pat repl`: replaces all non-overlapping
occurrences, scanning left to right.  (Go's behaviour for an empty
pattern — inserting between characters — is never exercised by this
code; an empty pattern leaves the string unchanged here.) -/
def replaceAll (s pat repl : Str) : Str :=
  match pat with
  | [] => s
  | p :: ps => replaceAllAux p ps repl s.length s

/-- The scan of `strings.Split` for a non-empty separator, carrying the
reversed current piece; fuel-structural like `replaceAllAux`. -/
def goSplitAux (p : Char) (ps : Str) : Nat → Str → Str → List Str
  | _, [], acc => [acc.reverse]
  | 0, s, acc => [acc.reverse ++ s]
  | fuel + 1, c :: rest, acc =>
    if goHasPre (p :: ps) (c :: rest) then
      acc.reverse :: goSplitAux p ps fuel (List.drop (p :: ps).length (c :: rest)) []
    else
      goSplitAux p ps fuel rest (c :: acc)

/-- `strings.Split`.  (The empty-separator case — splitting into single
characters — is never exercised by this code.) -/
def goSplit (s sep : Str) : List Str :=
  match sep with
  | [] => [s]
  | p :: ps => goSplitAux p ps s.length s []

/-- The white-space class `strings.TrimSpace` trims (the ASCII part of
Unicode white space; all data this code trims is ASCII). -/
def isGoSpace (c : Char) : Bool :=
  c = ' ' || c = '\t' || c = '\n' || c = '\x0d' || c = '\x0b' || c = '\x0c'

/-- `strings.TrimSpace`. -/
def goTrimSpace (s : Str) : Str :=
  ((s.dropWhile isGoSpace).reverse.dropWhile isGoSpace).reverse

/-- `strings.LastIndex s [c]`: the index of the last occurrence of the
character, or `none` where Go returns `-1`. -/
def lastIndexOf (s : Str) (c : Char) : Option Nat :=
  match s with
  | [] => none
  | c0 :: rest =>
    match lastIndexOf rest c with
    | some i => some (i + 1)
    | none => if c0 = c then some 0 else none

/-- Decimal rendering of a natural number (`strconv`'s base-10 digits). -/
def natToStr (n : Nat) : Str := (Nat.repr n).data

/-- `strconv.FormatInt i 10`. -/
def intToStr (i : Int) : Str :=
  if i < 0 then '-' :: natToStr i.natAbs else natToStr i.toNat

/-- `strings.Join` with a separator. -/
def goJoin (parts : List Str) (sep : Str) : Str :=
  match parts with
  | [] => []
  | p :: rest => rest.foldl (fun acc i => acc ++ sep ++ i) p

/-- UTF-8 byte expansion of one character (Go `[]byte(s)` views a string
as its UTF-8 bytes). -/
def utf8Char (c : Char) : List Nat :=
  let n := c.toNat
  if n < 128 then [n]
  else if n < 2048 then [192 + n / 64, 128 + n % 64]
  else if n < 65536 then [224 + n / 4096, 128 + n / 64 % 64, 128 + n % 64]
  else [240 + n / 262144, 128 + n / 4096 % 64, 128 + n / 64 % 64, 128 + n % 64]

/-- UTF-8 bytes of a string. -/
def utf8Bytes (s : Str) : List Nat := (s.map utf8Char).flatten

/-- The base64 standard alphabet. -/
def base64Alphabet : Str :=
  gs "ABCDEFGHIJKLMNOPQRSTUVWXYZabcdefghijklmnopqrstuvwxyz0123456789+/"

/-- One base64 digit. -/
def b64digit (n : Nat) : Char := base64Alphabet.getD n '='

/-- `base64.StdEncoding.EncodeToString` over a byte list: groups of three
bytes become four digits, with `=` padding. -/
def base64Encode : List Nat → Str
  | [] => []
  | [b1] => [b64digit (b1 / 4), b64digit (b1 % 4 * 16), '=', '=']
  | [b1, b2] =>
    [b64digit (b1 / 4), b64digit (b1 % 4 * 16 + b2 / 16), b64digit (b2 % 16 * 4), '=']
  | b1 :: b2 :: b3 :: rest =>
    b64digit (b1 / 4) :: b64digit (b1 % 4 * 16 + b2 / 16) ::
      b64digit (b2 % 16 * 4 + b3 / 64) :: b64digit (b3 % 64) :: base64Encode rest

/-- `base64.StdEncoding.EncodeToString([]byte(s))`. -/
def b64 (s : Str) : Str := base64Encode (utf8Bytes s)

/-- Go map read `m[k]` for a `map[string]string`: the zero value (the
empty string) where the key is absent. -/
def mapGet (m : List (Str × Str)) (k : Str) : Str :=
  match m with
  | [] => []
  | (k0, v0) :: rest => if k0 = k then v0 else mapGet rest k

/-- Fold of decimal digits into a natural number. -/
def digitsToNat (ds : Str) : Nat :=
  ds.foldl (fun acc c => acc * 10 + (c.toNat - '0'.toNat)) 0

/-- Kubernetes `resource.Quantity`, modeled as an exact fraction
`num / den` (not normalized: the operations this code performs — parsing
and addition — are implemented without reduction, so every value is
kernel-computable; all equalities this file proves are between values
built by the same computation, where the representation coincides). -/
structure Quantity where
  num : Int
  den : Nat
deriving DecidableEq

/-- Exact addition of quantities (`resource.Quantity.Add`). -/
def Quantity.add (a b : Quantity) : Quantity :=
  ⟨a.num * b.den + b.num * a.den, a.den * b.den⟩

/-- Exact multiplication of quantities (used while parsing). -/
def Quantity.mul (a b : Quantity) : Quantity :=
  ⟨a.num * b.num, a.den * b.den⟩

/-- The multiplier a Kubernetes quantity suffix denotes
(`resource.ParseQuantity`); `none` for an unrecognized suffix. -/
def suffixMultiplier (s : Str) : Option Quantity :=
  if s = [] then some ⟨1, 1⟩
  else if s = gs "Ki" then some ⟨1024, 1⟩
  else if s = gs "Mi" then some ⟨1024 ^ 2, 1⟩
  else if s = gs "Gi" then some ⟨1024 ^ 3, 1⟩
  else if s = gs "Ti" then some ⟨1024 ^ 4, 1⟩
  else if s = gs "Pi" then some ⟨1024 ^ 5, 1⟩
  else if s = gs "Ei" then some ⟨1024 ^ 6, 1⟩
  else if s = gs "n" then some ⟨1, 1000000000⟩
  else if s = gs "u" then some ⟨1, 1000000⟩
  else if s = gs "m" then some ⟨1, 1000⟩
  else if s = gs "k" then some ⟨1000, 1⟩
  else if s = gs "M" then some ⟨1000 ^ 2, 1⟩
  else if s = gs "G" then some ⟨1000 ^ 3, 1⟩
  else if s = gs "T" then some ⟨1000 ^ 4, 1⟩
  else if s = gs "P" then some ⟨1000 ^ 5, 1⟩
  else if s = gs "E" then some ⟨1000 ^ 6, 1⟩
  else none

/-- `resource.ParseQuantity`, as the exact value of the decimal fragment
of the quantity grammar: an optional sign, a digit run, an optional
fraction, an optional suffix.  Anything else fails, as the Go parser
fails on malformed input. -/
def parseQuantity (s : Str) : Option Quantity := do
  let (sign, s1) : Quantity × Str :=
    match s with
    | '-' :: rest => (⟨-1, 1⟩, rest)
    | '+' :: rest => (⟨1, 1⟩, rest)
    | _ => (⟨1, 1⟩, s)
  let intDigits := s1.takeWhile Char.isDigit
  let rest1 := s1.dropWhile Char.isDigit
  if intDigits = [] then none
  else
    let (fracDigits, rest2) : Str × Str :=
      match rest1 with
      | '.' :: r => (r.takeWhile Char.isDigit, r.dropWhile Char.isDigit)
      | _ => ([], rest1)
    if rest1 ≠ [] ∧ rest1.head? = some '.' ∧ fracDigits = [] then none
    else do
      let mult ← suffixMultiplier rest2
      let mantissa : Quantity :=
        ⟨digitsToNat intDigits * 10 ^ fracDigits.length + digitsToNat fracDigits,
          10 ^ fracDigits.length⟩
      some ((sign.mul mantissa).mul mult)

/-- `resource.MustParse` (panics on failure in Go; this code only applies
it to `"%dMi"` with a positive integer, where parsing succeeds). -/
def mustParse (s : Str) : Quantity := (parseQuantity s).getD ⟨0, 1⟩

/-! ## The Tekton data model (the fields this code populates) -/

/-- `tektonpipeline.ParamType`. -/
inductive ParamType
  | string
  | array
deriving DecidableEq

/-- `tektonpipeline.ParamValue` / `ResultValue`. -/
structure ParamValue where
  type : ParamType
  stringVal : Str := []
  arrayVal : List Str := []
deriving DecidableEq

/-- `tektonpipeline.Param`: a named value. -/
structure Param where
  name : Str
  value : ParamValue
deriving DecidableEq

/-- `tektonpipeline.ParamSpec`: a parameter declaration. -/
structure ParamSpec where
  name : Str
  type : ParamType
  description : Str := []
  dflt : Option ParamValue := none
deriving DecidableEq

/-- `tektonpipeline.TaskResult` (the declared result type this code sets
is always the string type, left implicit). -/
structure TaskResult where
  name : Str
  description : Str := []
deriving DecidableEq

/-- `v1.SecretKeySelector` of an `EnvVarSource`. -/
structure SecretKeyRef where
  secretName : Str
  key : Str
  optional : Bool
deriving DecidableEq

/-- `v1.EnvVar`. -/
structure EnvVar where
  name : Str
  value : Str := []
  valueFrom : Option SecretKeyRef := none
deriving DecidableEq

/-- `v1.PullPolicy`. -/
inductive PullPolicy
  | ifNotPresent
  | always
deriving DecidableEq

/-- One of `v1.ResourceRequirements`' lists, holding the two quantities
this code fills in. -/
structure ResourceList where
  memory : Quantity
  cpu : Quantity
deriving DecidableEq

/-- `v1.ResourceRequirements`. -/
structure ComputeResources where
  requests : ResourceList
  limits : ResourceList
deriving DecidableEq

/-- `tektonpipeline.Step`. -/
structure Step where
  name : Str
  image : Str
  imagePullPolicy : Option PullPolicy := none
  script : Str := []
  env : List EnvVar := []
  computeResources : Option ComputeResources := none
  workingDir : Str := []
  args : List Str := []
  timeoutHours : Option Int := none
  runAsUser : Option Int := none
deriving DecidableEq

/-- `tektonpipeline.WorkspaceDeclaration`. -/
structure WorkspaceDeclaration where
  name : Str
  mountPath : Str := []
deriving DecidableEq

/-- `tektonpipeline.WorkspacePipelineTaskBinding`. -/
structure WorkspaceBinding where
  name : Str
  workspace : Str
deriving DecidableEq

/-- `tektonpipeline.TaskSpec`. -/
structure TaskSpec where
  workspaces : List WorkspaceDeclaration := []
  params : List ParamSpec := []
  results : List TaskResult := []
  steps : List Step := []
deriving DecidableEq

/-- `tektonpipeline.TaskRef` carrying a `ResolverRef` (the only form this
code builds). -/
structure TaskRef where
  resolver : Str
  params : List Param := []
deriving DecidableEq

/-- `tektonpipeline.PipelineTask`. -/
structure PipelineTask where
  name : Str
  runAfter : List Str := []
  taskSpec : Option TaskSpec := none
  taskRef : Option TaskRef := none
  timeoutHours : Option Int := none
  params : List Param := []
  workspaces : List WorkspaceBinding := []
deriving DecidableEq

/-- `tektonpipeline.PipelineResult`. -/
structure PipelineResult where
  name : Str
  description : Str := []
  value : ParamValue
deriving DecidableEq

/-- `tektonpipeline.PipelineWorkspaceDeclaration`. -/
structure PipelineWorkspace where
  name : Str
deriving DecidableEq

/-- `tektonpipeline.PipelineSpec`. -/
structure PipelineSpec where
  workspaces : List PipelineWorkspace := []
  params : List ParamSpec := []
  tasks : List PipelineTask := []
  results : List PipelineResult := []
deriving DecidableEq

/-! ## The input data model -/

/-- The registry addressing fields of the tenant config
(`v1alpha1.ImageRegistry`). -/
structure ImageRegistry where
  host : Str := []
  port : Str := []
  owner : Str := []
  repository : Str := []
  prependTag : Str := []
  secretName : Str := []
deriving DecidableEq

/-- `v1alpha1.MavenDeployment`. -/
structure MavenDeployment where
  repository : Str := []
  username : Str := []
deriving DecidableEq

/-- `v1alpha1.GitSourceArchive`. -/
structure GitSourceArchive where
  identity : Str := []
  url : Str := []
  disableSSLVerification : Bool := false
deriving DecidableEq

/-- `v1alpha1.CacheSettings`. -/
structure CacheSettings where
  disableTLS : Bool := false
deriving DecidableEq

/-- `v1alpha1.BuildSettings`: the six resource-quantity override strings. -/
structure BuildSettings where
  taskRequestMemory : Str := []
  buildRequestMemory : Str := []
  taskRequestCPU : Str := []
  taskLimitCPU : Str := []
  buildRequestCPU : Str := []
  buildLimitCPU : Str := []
deriving DecidableEq

/-- `v1alpha1.JBSConfigSpec` (the fields this code reads). -/
structure JBSConfigSpec where
  registry : ImageRegistry := {}
  cacheSettings : CacheSettings := {}
  containerBuilds : Bool := false
  requireArtifactVerification : Bool := false
  mavenDeployment : MavenDeployment := {}
  gitSourceArchive : GitSourceArchive := {}
  buildSettings : BuildSettings := {}
deriving DecidableEq

/-- `v1alpha1.JBSConfig`. -/
structure JBSConfig where
  namespc : Str := []
  annotations : List (Str × Str) := []
  spec : JBSConfigSpec := {}
deriving DecidableEq

/-- Modelled from the spec: `jbsConfig.ImageRegistry()` resolves the
tenant's registry addressing fields (host, port, owner, repository, tag
prefix, secret name); its defining file is not part of the staged
sources. -/
def JBSConfig.imageRegistry (c : JBSConfig) : ImageRegistry := c.spec.registry

/-- `v1alpha1.SystemConfig` (the field this code reads: the cluster-wide
ceiling on additional memory). -/
structure SystemConfigSpec where
  maxAdditionalMemory : Int := 0
deriving DecidableEq

/-- `v1alpha1.SystemConfig`. -/
structure SystemConfig where
  spec : SystemConfigSpec := {}
deriving DecidableEq

/-- One entry of a recipe's additional-download list
(`v1alpha1.AdditionalDownload`). -/
structure AdditionalDownload where
  uri : Str := []
  fileType : Str := []
  binaryPath : Str := []
  fileName : Str := []
  packageName : Str := []
  sha256 : Str := []
deriving DecidableEq

/-- `v1alpha1.BuildRecipe` (the fields this code reads). -/
structure BuildRecipe where
  tool : Str := []
  image : Str := []
  javaVersion : Str := []
  toolVersion : Str := []
  enforceVersion : Str := []
  toolVersions : List (Str × Str) := []
  disabledPlugins : List Str := []
  repositories : List Str := []
  preBuildScript : Str := []
  postBuildScript : Str := []
  additionalDownloads : List AdditionalDownload := []
  allowedDifferences : List Str := []
  additionalMemory : Int := 0
  disableSubmodules : Bool := false
deriving DecidableEq

/-- `v1alpha1.SCMInfo` (`Private` is renamed: `private` is a Lean
keyword). -/
structure SCMInfo where
  scmURL : Str := []
  commitHash : Str := []
  isPrivate : Bool := false
deriving DecidableEq

/-- `v1alpha1.DependencyBuildSpec` (the fields this code reads). -/
structure DependencyBuildSpec where
  version : Str := []
  scmInfo : SCMInfo := {}
deriving DecidableEq

/-- `v1alpha1.DependencyBuild`. -/
structure DependencyBuild where
  name : Str := []
  annotations : List (Str × Str) := []
  spec : DependencyBuildSpec := {}
deriving DecidableEq

/-- Modelled from the spec: the compile-time inputs of the engine that
live outside this source file — the contents of the `go:embed` script
files (§4.3's fixed template catalog) and the two keystore helpers of the
`artifactbuild` package (§4.3: "A keystore-installation preamble is always
prepended").  They are passed in explicitly so nothing about their text is
invented here. -/
structure Ext where
  mavenBuild : Str
  mavenSettings : Str
  gradleBuild : Str
  sbtBuild : Str
  antBuild : Str
  packageTemplate : Str
  dockerfileEntryScript : Str
  buildEntryScript : Str
  buildTrustedArtifacts : Str
  installKeystoreScript : Str
  installKeystoreIntoBRP : List (List Str) → Str

/-! ## Constants

The workspace and task names are declared in the source file itself.  The
pipeline parameter / result name constants and the `v1alpha1` secret-name
constants are declared elsewhere in the repository (not staged); each is
modelled as a fixed distinct name.  Where the source file pins a value by
using the literal next to the constant (`GOALS`, `CACHE_URL`,
`IMAGE_DIGEST`, `IMAGE_URL`), that value is used. -/

/-- `WorkspaceBuildSettings`. -/
def workspaceBuildSettings : Str := gs "build-settings"

/-- `WorkspaceSource`. -/
def workspaceSource : Str := gs "source"

/-- `WorkspaceMount`. -/
def workspaceMount : Str := gs "/var/workdir"

/-- `WorkspaceTls`. -/
def workspaceTls : Str := gs "tls"

/-- `PreBuildTaskName`. -/
def preBuildTaskName : Str := gs "pre-build"

/-- `BuildTaskName`. -/
def buildTaskName : Str := gs "build"

/-- `PostBuildTaskName`. -/
def postBuildTaskName : Str := gs "post-build"

/-- Modelled from the spec: `PipelineBuildId`, declared outside the staged
sources. -/
def pipelineBuildId : Str := gs "BUILD_ID"

/-- Modelled from the spec: `PipelineParamScmUrl`. -/
def pipelineParamScmUrl : Str := gs "URL"

/-- Modelled from the spec: `PipelineParamScmTag`. -/
def pipelineParamScmTag : Str := gs "TAG"

/-- Modelled from the spec: `PipelineParamScmHash`. -/
def pipelineParamScmHash : Str := gs "GIT_HASH"

/-- Modelled from the spec: `PipelineParamChainsGitUrl`. -/
def pipelineParamChainsGitUrl : Str := gs "CHAINS-GIT_URL"

/-- Modelled from the spec: `PipelineParamChainsGitCommit`. -/
def pipelineParamChainsGitCommit : Str := gs "CHAINS-GIT_COMMIT"

/-- `PipelineParamGoals`: pinned to `GOALS` by the literal
`"$(params.GOALS[*])"` in the build step's args. -/
def pipelineParamGoals : Str := gs "GOALS"

/-- Modelled from the spec: `PipelineParamJavaVersion`. -/
def pipelineParamJavaVersion : Str := gs "JAVA_VERSION"

/-- Modelled from the spec: `PipelineParamToolVersion`. -/
def pipelineParamToolVersion : Str := gs "TOOL_VERSION"

/-- Modelled from the spec: `PipelineParamPath`. -/
def pipelineParamPath : Str := gs "CONTEXT_DIR"

/-- Modelled from the spec: `PipelineParamEnforceVersion`. -/
def pipelineParamEnforceVersion : Str := gs "ENFORCE_VERSION"

/-- Modelled from the spec: `PipelineParamProjectVersion`. -/
def pipelineParamProjectVersion : Str := gs "PROJECT_VERSION"

/-- `PipelineParamCacheUrl`: pinned to `CACHE_URL` by the literal
`"$(params.CACHE_URL)"` in `doSubstitution`. -/
def pipelineParamCacheUrl : Str := gs "CACHE_URL"

/-- Modelled from the spec: `JavaHome`, the environment name of the
toolchain home path. -/
def javaHomeEnvName : Str := gs "JAVA_HOME"

/-- Modelled from the spec: `PipelineResultPreBuildImageDigest`. -/
def pipelineResultPreBuildImageDigest : Str := gs "PRE_BUILD_IMAGE_DIGEST"

/-- Modelled from the spec: `PipelineResultGitArchive`. -/
def pipelineResultGitArchive : Str := gs "GIT_ARCHIVE"

/-- `PipelineResultImage`: pinned to `IMAGE_URL` by the source's comment
listing the delegated build task's results. -/
def pipelineResultImage : Str := gs "IMAGE_URL"

/-- `PipelineResultImageDigest`: pinned to `IMAGE_DIGEST` by the literal
`IMAGE_DIGEST` in the post-build restore script. -/
def pipelineResultImageDigest : Str := gs "IMAGE_DIGEST"

/-- Modelled from the spec: `PipelineResultContaminants`. -/
def pipelineResultContaminants : Str := gs "CONTAMINANTS"

/-- Modelled from the spec: `PipelineResultDeployedResources`. -/
def pipelineResultDeployedResources : Str := gs "DEPLOYED_RESOURCES"

/-- Modelled from the spec: `PipelineResultPassedVerification`. -/
def pipelineResultPassedVerification : Str := gs "PASSED_VERIFICATION"

/-- Modelled from the spec: `PipelineResultVerificationResult`. -/
def pipelineResultVerificationResult : Str := gs "VERIFICATION_RESULTS"

/-- Modelled from the spec: `jbsconfig.TestRegistry`, the annotation key
of the "test registry" escape hatch. -/
def testRegistryAnnotation : Str := gs "jvmbuildservice.io/test-registry"

/-- Modelled from the spec: `v1alpha1.GitSecretName`. -/
def gitSecretName : Str := gs "jvm-build-git-secrets"

/-- Modelled from the spec: `v1alpha1.GitSecretTokenKey`. -/
def gitSecretTokenKey : Str := gs ".git-credentials"

/-- Modelled from the spec: `v1alpha1.ImageSecretTokenKey`. -/
def imageSecretTokenKey : Str := gs "token"

/-- Modelled from the spec: `v1alpha1.MavenSecretName`. -/
def mavenSecretName : Str := gs "jvm-build-maven-repo-secrets"

/-- Modelled from the spec: `v1alpha1.MavenSecretKey`. -/
def mavenSecretKey : Str := gs "mavenpassword"

/-- Modelled from the spec: `v1alpha1.AWSSecretName`. -/
def awsSecretName : Str := gs "jvm-build-maven-repo-aws-secrets"

/-- Modelled from the spec: `v1alpha1.AWSAccessID`. -/
def awsAccessID : Str := gs "awsaccesskey"

/-- Modelled from the spec: `v1alpha1.AWSSecretKey`. -/
def awsSecretKey : Str := gs "awssecretkey"

/-- Modelled from the spec: `v1alpha1.AWSProfile`. -/
def awsProfile : Str := gs "awsprofile"

/-- Modelled from the spec: `v1alpha1.GitRepoSecretName`. -/
def gitRepoSecretName : Str := gs "jvm-build-git-repo-secrets"

/-- Modelled from the spec: `v1alpha1.GitRepoSecretKey`. -/
def gitRepoSecretKey : Str := gs "gitdeploytoken"

/-- Modelled from the spec: `v1alpha1.KonfluxBuildDefinitions`, the URL of
the external, versioned build-task definition. -/
def konfluxBuildDefinitions : Str :=
  gs "https://raw.githubusercontent.com/konflux-ci/build-definitions/main/task/buildah-oci-ta/0.2/buildah-oci-ta.yaml"

/-- Modelled from the spec: `v1alpha1.DefaultTimeout`, the fixed
wall-clock timeout in hours carried by the build and post-build stages. -/
def defaultTimeout : Int := 3

/-- Modelled from the spec: `artifactbuild.DependencyScmAnnotation`. -/
def dependencyScmAnnotation : Str := gs "jvmbuildservice.io/dependency-scm"

/-! ## The helper functions of the source file -/

/-- `strings.HasSuffix`. -/
def goHasSuffix (s suffix : Str) : Bool := goHasPre suffix.reverse s.reverse

/-- `secretVariables`: the conditional secret-backed environment
bindings, every one marked optional. -/
def secretVariables (jbsConfig : JBSConfig) : List EnvVar :=
  let sv : List EnvVar :=
    if jbsConfig.imageRegistry.secretName ≠ [] then
      [{ name := gs "REGISTRY_TOKEN",
         valueFrom := some ⟨jbsConfig.imageRegistry.secretName, imageSecretTokenKey, true⟩ }]
    else []
  let sv :=
    if jbsConfig.spec.mavenDeployment.repository ≠ [] then
      sv ++
        [{ name := gs "MAVEN_PASSWORD", valueFrom := some ⟨mavenSecretName, mavenSecretKey, true⟩ },
         { name := gs "AWS_ACCESS_KEY_ID", valueFrom := some ⟨awsSecretName, awsAccessID, true⟩ },
         { name := gs "AWS_SECRET_ACCESS_KEY", valueFrom := some ⟨awsSecretName, awsSecretKey, true⟩ },
         { name := gs "AWS_PROFILE", valueFrom := some ⟨awsSecretName, awsProfile, true⟩ }]
    else sv
  if jbsConfig.spec.gitSourceArchive.identity ≠ [] then
    sv ++ [{ name := gs "GIT_DEPLOY_TOKEN",
             valueFrom := some ⟨gitRepoSecretName, gitRepoSecretKey, true⟩ }]
  else sv

/-- `createBuildScript`: the heredoc that the preparatory stage uses to
write the assembled script to `build.sh`. -/
def createBuildScript (build : Str) : Str :=
  gs "tee $(workspaces." ++ workspaceSource ++ gs ".path)/build.sh <<'RHTAPEOF'\n" ++
    build ++
    gs "\nRHTAPEOF\n" ++
    gs "chmod +x $(workspaces." ++ workspaceSource ++ gs ".path)/build.sh\n"

/-- `createKonfluxScripts`: writes the portable container description and
the run-build script into `.jbs/`. -/
def createKonfluxScripts (containerfile konfluxScript : Str) : Str :=
  gs "mkdir -p $(workspaces." ++ workspaceSource ++ gs ".path)/source/.jbs\n" ++
    gs "tee $(workspaces." ++ workspaceSource ++ gs ".path)/source/.jbs/Containerfile <<'RHTAPEOF'\n" ++
    containerfile ++
    gs "\nRHTAPEOF\n" ++
    gs "tee $(workspaces." ++ workspaceSource ++ gs ".path)/source/.jbs/run-build.sh <<'RHTAPEOF'\n" ++
    konfluxScript ++
    gs "\nRHTAPEOF\n" ++
    gs "chmod +x $(workspaces." ++ workspaceSource ++ gs ".path)/source/.jbs/run-build.sh\n"

/-- `pullPolicy`: images tagged `:dev` always pull fresh. -/
def pullPolicy (buildRequestProcessorImage : Str) : PullPolicy :=
  if goHasSuffix buildRequestProcessorImage (gs ":dev") then PullPolicy.always
  else PullPolicy.ifNotPresent

/-- `memLimits`: the six configured quantities plus the derived
build-stage request memory. -/
structure MemLimits where
  defaultRequestMemory : Quantity
  defaultBuildRequestMemory : Quantity
  defaultRequestCPU : Quantity
  defaultLimitCPU : Quantity
  buildRequestCPU : Quantity
  buildLimitCPU : Quantity
  buildRequestMemory : Quantity
deriving DecidableEq

/-- `settingOrDefault`: an override falls back to the default when empty
or whitespace-only. -/
def settingOrDefault (setting dflt : Str) : Str :=
  if (goTrimSpace setting).length = 0 then dflt else setting

/-- `memoryLimits`: parses the six overrides (each with its fixed
default); a parse failure aborts.  A positive additional-memory increment
(mebibytes) is added to the build-stage request memory and the default
request memory. -/
def memoryLimits (jbsConfig : JBSConfig) (additionalMemory : Int) : Option MemLimits :=
  let bs := jbsConfig.spec.buildSettings
  (parseQuantity (settingOrDefault bs.taskRequestMemory (gs "512Mi"))).bind fun defaultRequestMemory =>
  (parseQuantity (settingOrDefault bs.buildRequestMemory (gs "1024Mi"))).bind fun defaultBuildRequestMemory =>
  (parseQuantity (settingOrDefault bs.taskRequestCPU (gs "10m"))).bind fun defaultRequestCPU =>
  (parseQuantity (settingOrDefault bs.taskLimitCPU (gs "300m"))).bind fun defaultLimitCPU =>
  (parseQuantity (settingOrDefault bs.buildRequestCPU (gs "300m"))).bind fun buildRequestCPU =>
  (parseQuantity (settingOrDefault bs.buildLimitCPU (gs "2"))).bind fun buildLimitCPU =>
  let base : MemLimits :=
    ⟨defaultRequestMemory, defaultBuildRequestMemory, defaultRequestCPU, defaultLimitCPU,
      buildRequestCPU, buildLimitCPU, defaultBuildRequestMemory⟩
  if additionalMemory > 0 then
    let additional := mustParse (intToStr additionalMemory ++ gs "Mi")
    some { base with
            buildRequestMemory := base.buildRequestMemory.add additional,
            defaultRequestMemory := base.defaultRequestMemory.add additional }
  else
    some base

/-- The per-package fragment of the install section: the package template
with its six placeholders substituted (`additionalPackages` loop body
after the validation branches). -/
def packageFragment (ext : Ext) (count : Nat) (i : AdditionalDownload) : Str :=
  let fileName := if i.fileName = [] then gs "package-" ++ natToStr count else i.fileName
  let t := replaceAll ext.packageTemplate (gs "{URI}") i.uri
  let t := replaceAll t (gs "{FILENAME}") fileName
  let t := replaceAll t (gs "{SHA256}") i.sha256
  let t := replaceAll t (gs "{TYPE}") i.fileType
  let t := replaceAll t (gs "{BINARY_PATH}") i.binaryPath
  replaceAll t (gs "{PACKAGE_NAME}") i.packageName

/-- The loop of `additionalPackages`, carrying the loop index and the
accumulated `install` string; an unrecognized file type breaks out of the
loop. -/
def additionalPackagesLoop (ext : Ext) : Nat → Str → List AdditionalDownload → Str
  | _, install, [] => install
  | count, install, i :: rest =>
    if i.fileType = gs "tar" then
      let install :=
        if i.binaryPath = [] then
          gs "echo 'Binary path not specified for package " ++ i.uri ++ gs "'; exit 1"
        else install
      additionalPackagesLoop ext (count + 1) (install ++ packageFragment ext count i) rest
    else if i.fileType = gs "executable" then
      let install :=
        if i.fileName = [] then
          gs "echo 'File name not specified for package " ++ i.uri ++ gs "'; exit 1"
        else install
      additionalPackagesLoop ext (count + 1) (install ++ packageFragment ext count i) rest
    else if i.fileType = gs "rpm" then
      let install :=
        if i.packageName = [] then
          gs "echo 'Package name not specified for rpm type'; exit 1"
        else install
      additionalPackagesLoop ext (count + 1) (install ++ packageFragment ext count i) rest
    else
      gs "echo 'Unknown file type " ++ i.fileType ++ gs " for package " ++ i.uri ++ gs "'; exit 1"

/-- `additionalPackages`: assembles the install section from the recipe's
additional-download list. -/
def additionalPackages (ext : Ext) (recipe : BuildRecipe) : Str :=
  additionalPackagesLoop ext 0 [] recipe.additionalDownloads

/-- `gitScript`: clone at the recorded commit (with credential setup for a
private repository, and submodule checkout unless disabled). -/
def gitScript (db : DependencyBuild) (recipe : BuildRecipe) : Str :=
  let gitArgs := gs "echo \"Cloning $(params." ++ pipelineParamScmUrl ++
    gs ") and resetting to $(params." ++ pipelineParamScmHash ++ gs ")\" && "
  let gitArgs :=
    if db.spec.scmInfo.isPrivate then
      gitArgs ++
        gs "echo \"$GIT_TOKEN\" > $HOME/.git-credentials && chmod 400 $HOME/.git-credentials && " ++
        gs "echo '[credential]\n        helper=store\n' > $HOME/.gitconfig && "
    else gitArgs
  let gitArgs := gitArgs ++ gs "git clone $(params." ++ pipelineParamScmUrl ++
    gs ") $(workspaces." ++ workspaceSource ++ gs ".path)/source && cd $(workspaces." ++
    workspaceSource ++ gs ".path)/source && git reset --hard $(params." ++
    pipelineParamScmHash ++ gs ")"
  if ¬recipe.disableSubmodules then
    gitArgs ++ gs " && git submodule init && git submodule update --recursive"
  else gitArgs

/-- Whether the tenant config carries the "test registry" annotation with
value `"true"` (this relaxes TLS throughout plan generation). -/
def isTestRegistry (jbsConfig : JBSConfig) : Bool :=
  mapGet jbsConfig.annotations testRegistryAnnotation = gs "true"

/-- This is similar to ContainerRegistryDeployer.java::createImageName
with the same image tag length restriction (`prependTagToImage`). -/
def prependTagToImage (imageId : Str) (prependTag : Str) : Str :=
  let st : Str × Str :=
    match lastIndexOf imageId ':' with
    | some i => (imageId.take i ++ gs ":", prependTag ++ gs "_" ++ imageId.drop (i + 1))
    | none =>
      if prependTag ≠ [] then ([], prependTag ++ gs "_" ++ imageId)
      else ([], imageId)
  let tag := if st.2.length > 128 then st.2.take 128 else st.2
  st.1 ++ tag

/-- `registryArgsWithDefaults`: the fully-qualified image reference, with
default host and repository, optional port and owner, and the
length-capped tag scheme. -/
def registryArgsWithDefaults (jbsConfig : JBSConfig) (preBuildImageTag : Str) : Str :=
  let imageRegistry := jbsConfig.imageRegistry
  let r := if imageRegistry.host ≠ [] then imageRegistry.host else gs "quay.io"
  let r :=
    if imageRegistry.port ≠ [] ∧ imageRegistry.port ≠ gs "443" then
      r ++ gs ":" ++ imageRegistry.port
    else r
  let r := r ++ gs "/"
  let r := if imageRegistry.owner ≠ [] then r ++ imageRegistry.owner ++ gs "/" else r
  let r :=
    if imageRegistry.repository ≠ [] then r ++ imageRegistry.repository
    else r ++ gs "artifact-deployments"
  if preBuildImageTag ≠ [] then
    r ++ gs ":" ++ prependTagToImage preBuildImageTag imageRegistry.prependTag
  else r

/-- `gitArgs`: the Git source-archive flags. -/
def gitArgs (jbsConfig : JBSConfig) (db : DependencyBuild) : List Str :=
  let args : List Str := []
  let args :=
    if jbsConfig.spec.gitSourceArchive.identity ≠ [] then
      args ++ [gs "--git-identity=" ++ jbsConfig.spec.gitSourceArchive.identity]
    else args
  let args :=
    if jbsConfig.spec.gitSourceArchive.url ≠ [] then
      args ++ [gs "--git-url=" ++ jbsConfig.spec.gitSourceArchive.url]
    else args
  let args :=
    if jbsConfig.spec.gitSourceArchive.disableSSLVerification then
      args ++ [gs "--git-disable-ssl-verification"]
    else args
  if mapGet db.annotations dependencyScmAnnotation = gs "true" then
    args ++ [gs "--git-reuse-repository"]
  else args

/-- `pipelineBuildCommands`: the pre-build-image archive script and the
copy-artifacts / verify / deploy-pre-build-source argument lists. -/
def pipelineBuildCommands (imageId : Str) (db : DependencyBuild) (jbsConfig : JBSConfig)
    (buildId : Str) : Str × List Str × List Str × List Str :=
  let orasOptions := if isTestRegistry jbsConfig then gs "--insecure --plain-http" else []
  let preBuildImageTag := imageId ++ gs "-pre-build-image"
  let preBuildImageArgs :=
    gs "echo \"Creating pre-build-image archive\"\nexport ORAS_OPTIONS=\"" ++ orasOptions ++
      gs " --image-spec=v1.0 --artifact-type application/vnd.oci.image.config.v1+json\"\n" ++
      gs "cp $(workspaces.source.path)/build.sh $(workspaces.source.path)/source/.jbs\n" ++
      gs "create-archive --store " ++ registryArgsWithDefaults jbsConfig preBuildImageTag ++
      gs " $(results." ++ pipelineResultPreBuildImageDigest ++
      gs ".path)=$(workspaces.source.path)/source\n"
  let copyArtifactsArgs : List Str :=
    [gs "copy-artifacts",
     gs "--source-path=$(workspaces.source.path)/source",
     gs "--deploy-path=$(workspaces.source.path)/artifacts"]
  let deployArgs : List Str :=
    [gs "verify",
     gs "--path=$(workspaces.source.path)/artifacts",
     gs "--logs-path=$(workspaces.source.path)/logs",
     gs "--task-run-name=$(context.taskRun.name)",
     gs "--build-id=" ++ buildId,
     gs "--scm-uri=" ++ db.spec.scmInfo.scmURL,
     gs "--scm-commit=" ++ db.spec.scmInfo.commitHash]
  let konfluxArgs : List Str :=
    [gs "deploy-pre-build-source",
     gs "--source-path=$(workspaces.source.path)/source",
     gs "--task-run-name=$(context.taskRun.name)",
     gs "--scm-uri=" ++ db.spec.scmInfo.scmURL,
     gs "--scm-commit=" ++ db.spec.scmInfo.commitHash] ++
    gitArgs jbsConfig db ++ [gs "--image-id=" ++ imageId]
  (preBuildImageArgs, copyArtifactsArgs, deployArgs, konfluxArgs)

/-- `verifyParameters`: the verify-built-artifacts argument list. -/
def verifyParameters (jbsConfig : JBSConfig) (recipe : BuildRecipe) : List Str :=
  let args : List Str :=
    [gs "verify-built-artifacts",
     gs "--repository-url=$(params.CACHE_URL)",
     gs "--deploy-path=$(workspaces.source.path)/artifacts",
     gs "--task-run-name=$(context.taskRun.name)",
     gs "--results-file=$(results." ++ pipelineResultPassedVerification ++ gs ".path)"]
  let args :=
    if ¬jbsConfig.spec.requireArtifactVerification then args ++ [gs "--report-only"]
    else args
  args ++ recipe.allowedDifferences.map (fun i => gs "--excludes=" ++ i)

/-- The parenthesis-stripping of `extractArrayParam`
(`regexp.MustCompile("[(]|[)]").ReplaceAllString(j, "")`). -/
def stripParens (s : Str) : Str := s.filter (fun c => c != '(' && c != ')')

/-- `extractArrayParam`: concatenates all array elements for the name,
parentheses stripped, each followed by a space. -/
def extractArrayParam (key : Str) (paramValues : List Param) : Str :=
  paramValues.foldl
    (fun result i =>
      if i.name = key then
        i.value.arrayVal.foldl (fun r j => r ++ stripParens j ++ gs " ") result
      else result)
    []

/-- `extractEnvVar`: one shell `export` statement per variable, in input
order. -/
def extractEnvVar (envVar : List EnvVar) : Str :=
  envVar.foldl
    (fun result i => result ++ gs "export " ++ i.name ++ gs "=" ++ i.value ++ gs "\n")
    []

/-- The per-parameter pattern `$(params.<name>)`. -/
def paramRef (name : Str) : Str := gs "$(params." ++ name ++ gs ")"

/-- The first loop of `doSubstitution`: each string-typed parameter's
reference is replaced with its literal value, in list order. -/
def substParams (script : Str) (paramValues : List Param) : Str :=
  paramValues.foldl
    (fun s i =>
      match i.value.type with
      | ParamType.string => replaceAll s (paramRef i.name) i.value.stringVal
      | ParamType.array => s)
    script

/-- The fixed local-loopback cache URL `doSubstitution` writes in place of
`$(params.CACHE_URL)`. -/
def localCacheUrl (commitTime : Int) (buildRepos : Str) : Str :=
  gs "http://localhost:8080/v2/cache/rebuild" ++ buildRepos ++ gs "/" ++
    intToStr commitTime ++ gs "/"

/-- `doSubstitution`: parameter references, then the cache URL, then the
three workspace paths. -/
def doSubstitution (script : Str) (paramValues : List Param) (commitTime : Int)
    (buildRepos : Str) : Str :=
  let s := substParams script paramValues
  let s := replaceAll s (gs "$(params.CACHE_URL)") (localCacheUrl commitTime buildRepos)
  let s := replaceAll s (gs "$(workspaces.build-settings.path)") (gs "/var/workdir/software/settings")
  let s := replaceAll s (gs "$(workspaces.source.path)") (gs "/var/workdir/workspace")
  replaceAll s (gs "$(workspaces.tls.path)") (gs "/var/workdir/software/tls/service-ca.crt")

/-! ## `createPipelineSpec`

The function body is long; its local values are factored into named
definitions, each mirroring a contiguous piece of the source, and composed
at the end.  The parameters of the Go function are gathered into one
record. -/

/-- The parameters of `createPipelineSpec` (the `logr.Logger` is omitted:
logging does not feed the outputs). -/
structure Inputs where
  tool : Str
  commitTime : Int
  jbsConfig : JBSConfig
  systemConfig : SystemConfig
  recipe : BuildRecipe
  db : DependencyBuild
  paramValues : List Param
  buildRequestProcessorImage : Str
  buildId : Str
  existingImages : List (Str × Str)

/-- The preprocessor argument list: the tool-specific prepare command,
the source path, then one `-dp` flag per disabled plugin.  (In the
source, the maven list is built first and the gradle branch rebuilds it
identically but for the head, while the sbt/ant branches overwrite
element 0; all four shapes are head-only variations of the same tail.) -/
def preprocessorArgs (inp : Inputs) : List Str :=
  let path := gs "$(workspaces." ++ workspaceSource ++ gs ".path)/source"
  let dps := inp.recipe.disabledPlugins.map (fun i => gs "-dp " ++ i)
  if inp.tool = gs "gradle" then gs "gradle-prepare" :: path :: dps
  else if inp.tool = gs "sbt" then gs "sbt-prepare" :: path :: dps
  else if inp.tool = gs "ant" then gs "ant-prepare" :: path :: dps
  else gs "maven-prepare" :: path :: dps

/-- The toolchain home path: legacy Java major versions 7/8 use the
dotted form, all others the direct form. -/
def javaHome (recipe : BuildRecipe) : Str :=
  if recipe.javaVersion = gs "7" ∨ recipe.javaVersion = gs "8" then
    gs "/lib/jvm/java-1." ++ recipe.javaVersion ++ gs ".0"
  else gs "/lib/jvm/java-" ++ recipe.javaVersion

/-- The build step's tool environment. -/
def toolEnv (recipe : BuildRecipe) (db : DependencyBuild) : List EnvVar :=
  let te : List EnvVar := []
  let te :=
    if mapGet recipe.toolVersions (gs "maven") ≠ [] then
      te ++ [⟨gs "MAVEN_HOME", gs "/opt/maven/" ++ mapGet recipe.toolVersions (gs "maven"), none⟩]
    else te
  let te :=
    if mapGet recipe.toolVersions (gs "gradle") ≠ [] then
      te ++ [⟨gs "GRADLE_HOME", gs "/opt/gradle/" ++ mapGet recipe.toolVersions (gs "gradle"), none⟩]
    else te
  let te :=
    if mapGet recipe.toolVersions (gs "ant") ≠ [] then
      te ++ [⟨gs "ANT_HOME", gs "/opt/ant/" ++ mapGet recipe.toolVersions (gs "ant"), none⟩]
    else te
  let te :=
    if mapGet recipe.toolVersions (gs "sbt") ≠ [] then
      te ++ [⟨gs "SBT_DIST", gs "/opt/sbt/" ++ mapGet recipe.toolVersions (gs "sbt"), none⟩]
    else te
  te ++
    [⟨pipelineParamToolVersion, recipe.toolVersion, none⟩,
     ⟨pipelineParamProjectVersion, db.spec.version, none⟩,
     ⟨javaHomeEnvName, javaHome recipe, none⟩,
     ⟨pipelineParamEnforceVersion, recipe.enforceVersion, none⟩]

/-- The additional-memory value after the system-wide cap: a request
above a configured positive ceiling is clamped to the ceiling. -/
def clampedAdditionalMemory (recipe : BuildRecipe) (systemConfig : SystemConfig) : Int :=
  if systemConfig.spec.maxAdditionalMemory > 0 ∧
      recipe.additionalMemory > systemConfig.spec.maxAdditionalMemory then
    systemConfig.spec.maxAdditionalMemory
  else recipe.additionalMemory

/-- The tool-specific section of the build script: maven/gradle/ant
prepend the shared settings fragment, sbt does not; an unrecognized tool
yields an inline failing script. -/
def buildToolSection (ext : Ext) (tool : Str) : Str :=
  if tool = gs "maven" then ext.mavenSettings ++ gs "\n" ++ ext.mavenBuild
  else if tool = gs "gradle" then ext.mavenSettings ++ gs "\n" ++ ext.gradleBuild
  else if tool = gs "sbt" then ext.sbtBuild
  else if tool = gs "ant" then ext.mavenSettings ++ gs "\n" ++ ext.antBuild
  else gs "echo unknown build tool " ++ tool ++ gs " && exit 1"

/-- The assembled build script (the local `build` of the source): the
keystore preamble, the entry template, and the four placeholder
substitutions. -/
def assembledBuild (ext : Ext) (tool : Str) (recipe : BuildRecipe) : Str :=
  let build := ext.installKeystoreScript ++ gs "\n" ++ ext.buildEntryScript
  let build := replaceAll build (gs "{{BUILD}}") (buildToolSection ext tool)
  let build := replaceAll build (gs "{{INSTALL_PACKAGE_SCRIPT}}") (additionalPackages ext recipe)
  let build := replaceAll build (gs "{{PRE_BUILD_SCRIPT}}") recipe.preBuildScript
  replaceAll build (gs "{{POST_BUILD_SCRIPT}}") recipe.postBuildScript

/-- The concatenated extra-repository suffix: `-r1,r2,…`, empty for no
repositories. -/
def buildReposOf (recipe : BuildRecipe) : Str :=
  match recipe.repositories with
  | [] => []
  | r :: rest => rest.foldl (fun acc i => acc ++ gs "," ++ i) (gs "-" ++ r)

/-- The in-cluster cache URL (the `CACHE_URL` parameter's default). -/
def clusterCacheUrl (jbsConfig : JBSConfig) (recipe : BuildRecipe) (commitTime : Int) : Str :=
  let cacheUrl :=
    if jbsConfig.spec.cacheSettings.disableTLS then
      gs "http://jvm-build-workspace-artifact-cache." ++ jbsConfig.namespc ++
        gs ".svc.cluster.local/v2/cache/rebuild"
    else
      gs "https://jvm-build-workspace-artifact-cache-tls." ++ jbsConfig.namespc ++
        gs ".svc.cluster.local/v2/cache/rebuild"
  cacheUrl ++ buildReposOf recipe ++ gs "/" ++ intToStr commitTime

/-- The substituted preprocessor invocation script of the diagnostic
container. -/
def preprocessorScriptOf (inp : Inputs) : Str :=
  gs "#!/bin/sh\n/var/workdir/software/system-java/bin/java -jar /var/workdir/software/build-request-processor/quarkus-run.jar " ++
    doSubstitution (goJoin (preprocessorArgs inp) (gs " ")) inp.paramValues inp.commitTime
      (buildReposOf inp.recipe) ++ gs "\n"

/-- The substituted build script (the local `buildScript` of the source):
the assembled script after parameter substitution. -/
def buildScriptOf (ext : Ext) (inp : Inputs) : Str :=
  doSubstitution (assembledBuild ext inp.tool inp.recipe) inp.paramValues inp.commitTime
    (buildReposOf inp.recipe)

/-- The rendered tool-environment exports (the local `envVars`). -/
def envVarsOf (inp : Inputs) : Str := extractEnvVar (toolEnv inp.recipe inp.db)

/-- The extracted goal arguments (the local `cmdArgs`). -/
def cmdArgsOf (inp : Inputs) : Str := extractArrayParam pipelineParamGoals inp.paramValues

/-- The run-build script of the portable container description (the
local `konfluxScript`): shebang, environment exports, goal arguments,
then the substituted build script. -/
def konfluxScriptOf (ext : Ext) (inp : Inputs) : Str :=
  gs "#!/bin/sh\n" ++ envVarsOf inp ++ gs "\nset -- \"$@\" " ++ cmdArgsOf inp ++ gs "\n\n" ++
    buildScriptOf ext inp

/-- The fixed start-cache script embedded in the diagnostic container
definition. -/
def startCacheScript : Str :=
  gs "#!/bin/sh\n/var/workdir/software/system-java/bin/java -Dbuild-policy.default.store-list=rebuilt,central,jboss,redhat -Dkube.disabled=true -Dquarkus.kubernetes-client.trust-certs=true -jar /var/workdir/software/cache/quarkus-run.jar >/var/workdir/cache.log &" ++
    gs "\nwhile ! cat /var/workdir/cache.log | grep 'Listening on:'; do\n        echo \"Waiting for Cache to start\"\n        sleep 1\ndone \n"

/-- The combined run-all script of the diagnostic container definition. -/
def runFullBuildScript (inp : Inputs) : Str :=
  gs "#!/bin/sh\n/var/workdir/preprocessor.sh\n" ++ envVarsOf inp ++
    gs "\n/var/workdir/build.sh " ++ cmdArgsOf inp ++ gs "\n"

/-- The diagnostic container definition (the local `df`). -/
def dfOf (ext : Ext) (inp : Inputs) : Str :=
  let brp := inp.buildRequestProcessorImage
  let pv := inp.paramValues
  let ct := inp.commitTime
  let br := buildReposOf inp.recipe
  gs "FROM " ++ brp ++ gs " AS build-request-processor" ++
    gs "\nFROM " ++
    replaceAll brp (gs "hacbs-jvm-build-request-processor") (gs "hacbs-jvm-cache") ++
    gs " AS cache" ++
    gs "\nFROM " ++ inp.recipe.image ++
    gs "\nUSER 0" ++
    gs "\nWORKDIR /var/workdir" ++
    gs "\nENV CACHE_URL=" ++ doSubstitution (paramRef pipelineParamCacheUrl) pv ct br ++
    gs "\nRUN mkdir -p /var/workdir/software/settings /original-content/marker" ++
    gs "\nCOPY --from=build-request-processor /deployments/ /var/workdir/software/build-request-processor" ++
    gs "\nCOPY --from=build-request-processor /lib/jvm/jre-17 /var/workdir/software/system-java" ++
    gs "\nCOPY --from=build-request-processor /etc/java/java-17-openjdk /etc/java/java-17-openjdk" ++
    gs "\nCOPY --from=cache /deployments/ /var/workdir/software/cache" ++
    gs "\nRUN " ++ doSubstitution (gitScript inp.db inp.recipe) pv ct br ++
    gs "\nRUN echo " ++ b64 startCacheScript ++ gs " | base64 -d >/var/workdir/start-cache.sh" ++
    gs "\nRUN echo " ++ b64 (preprocessorScriptOf inp) ++ gs " | base64 -d >/var/workdir/preprocessor.sh" ++
    gs "\nRUN echo " ++ b64 (buildScriptOf ext inp) ++ gs " | base64 -d >/var/workdir/build.sh" ++
    gs "\nRUN echo " ++ b64 (runFullBuildScript inp) ++ gs " | base64 -d >/var/workdir/run-full-build.sh" ++
    gs "\nRUN echo " ++ b64 ext.dockerfileEntryScript ++ gs " | base64 -d >/var/workdir/entry-script.sh" ++
    gs "\nRUN chmod +x /var/workdir/*.sh" ++
    gs "\nCMD [ \"/bin/bash\", \"/var/workdir/entry-script.sh\" ]"

/-- The portable (Konflux) container description (the local `kf`): the
ant tool appends an extra deployment stage against the builder-processor
image; the artifact layer is always a from-scratch stage. -/
def kfOf (inp : Inputs) : Str :=
  let imageId := inp.db.name
  let pbc := pipelineBuildCommands imageId inp.db inp.jbsConfig inp.buildId
  let copyArtifactsArgs := pbc.2.1
  let kf :=
    gs "FROM " ++ inp.recipe.image ++
      gs "\nUSER 0" ++
      gs "\nWORKDIR /var/workdir" ++
      gs "\nRUN mkdir -p /var/workdir/software/settings /original-content/marker" ++
      gs "\nARG CACHE_URL=\"\"" ++
      gs "\nENV CACHE_URL=$CACHE_URL" ++
      gs "\nCOPY .jbs/run-build.sh /var/workdir" ++
      gs "\nCOPY . /var/workdir/workspace/source/" ++
      gs "\nRUN /var/workdir/run-build.sh"
  if inp.tool = gs "ant" then
    kf ++
      gs "\nFROM " ++ inp.buildRequestProcessorImage ++ gs " AS build-request-processor" ++
      gs "\nUSER 0" ++
      gs "\nWORKDIR /var/workdir" ++
      gs "\nCOPY --from=0 /var/workdir/ /var/workdir/" ++
      gs "\nRUN /opt/jboss/container/java/run/run-java.sh " ++
      doSubstitution (goJoin copyArtifactsArgs (gs " ")) [] inp.commitTime (buildReposOf inp.recipe) ++
      gs "\nFROM scratch" ++
      gs "\nCOPY --from=1 /var/workdir/workspace/artifacts /"
  else
    kf ++
      gs "\nFROM scratch" ++
      gs "\nCOPY --from=0 /var/workdir/workspace/artifacts /"

/-- The image of the trusted-artifacts steps:
`strings.TrimSpace(strings.Split(buildTrustedArtifacts, "FROM")[1])`. -/
def taImageOf (ext : Ext) : Str :=
  goTrimSpace ((goSplit ext.buildTrustedArtifacts (gs "FROM")).getD 1 [])

/-- The thirteen pipeline-level parameter declarations (the local
`pipelineParams`); the cache URL carries the in-cluster default. -/
def pipelineParamsOf (inp : Inputs) : List ParamSpec :=
  [⟨pipelineBuildId, ParamType.string, [], none⟩,
   ⟨pipelineParamScmUrl, ParamType.string, [], none⟩,
   ⟨pipelineParamScmTag, ParamType.string, [], none⟩,
   ⟨pipelineParamScmHash, ParamType.string, [], none⟩,
   ⟨pipelineParamChainsGitUrl, ParamType.string, [], none⟩,
   ⟨pipelineParamChainsGitCommit, ParamType.string, [], none⟩,
   ⟨pipelineParamGoals, ParamType.array, [], none⟩,
   ⟨pipelineParamJavaVersion, ParamType.string, [], none⟩,
   ⟨pipelineParamToolVersion, ParamType.string, [], none⟩,
   ⟨pipelineParamPath, ParamType.string, [], none⟩,
   ⟨pipelineParamEnforceVersion, ParamType.string, [], none⟩,
   ⟨pipelineParamProjectVersion, ParamType.string, [], none⟩,
   ⟨pipelineParamCacheUrl, ParamType.string, [],
     some ⟨ParamType.string, clusterCacheUrl inp.jbsConfig inp.recipe inp.commitTime, []⟩⟩]

/-- The `--insecure --plain-http` flags under the test-registry escape
hatch. -/
def orasOptionsOf (jbsConfig : JBSConfig) : Str :=
  if isTestRegistry jbsConfig then gs "--insecure --plain-http" else []

/-- The TLS-verification flag handed to the delegated build task. -/
def tlsVerifyOf (jbsConfig : JBSConfig) : Str :=
  if isTestRegistry jbsConfig then gs "false" else gs "true"

/-- The existing-image index lookup under the key
`builderImage + "-" + tool`. -/
def preBuildImageLookup (inp : Inputs) : Str :=
  mapGet inp.existingImages (inp.recipe.image ++ gs "-" ++ inp.recipe.tool)

/-- Whether a preparatory stage must be generated: the looked-up value is
empty. -/
def preBuildImageRequired (inp : Inputs) : Bool := preBuildImageLookup inp = []

/-- The upstream digest reference handed to the build stage: the index
value when present, otherwise the symbolic reference to the preparatory
stage's digest result. -/
def preBuildImageOf (inp : Inputs) : Str :=
  if preBuildImageRequired inp then
    gs "$(tasks." ++ preBuildTaskName ++ gs ".results." ++ pipelineResultPreBuildImageDigest ++ gs ")"
  else preBuildImageLookup inp

/-- The build stage's `runAfter` list. -/
def runAfterOf (inp : Inputs) : List Str :=
  if preBuildImageRequired inp then [preBuildTaskName] else []

/-- The post-build stage's `runAfter` list (the build stage appended). -/
def runAfterBuildOf (inp : Inputs) : List Str := runAfterOf inp ++ [buildTaskName]

/-- Requests/limits where both lists use the same memory quantity and the
limit CPU differs (the shape every resourced step uses). -/
def resourcesOf (memory requestCPU limitCPU : Quantity) : ComputeResources :=
  ⟨⟨memory, requestCPU⟩, ⟨memory, limitCPU⟩⟩

/-- The preparatory (`pre-build`) task spec: clone-and-settings,
preprocessor, create-pre-build-source, create-pre-build-image. -/
def buildSetupTaskSpec (ext : Ext) (inp : Inputs) (limits : MemLimits) : TaskSpec :=
  let pbc := pipelineBuildCommands inp.db.name inp.db inp.jbsConfig inp.buildId
  { workspaces :=
      [⟨workspaceBuildSettings, []⟩, ⟨workspaceSource, workspaceMount⟩, ⟨workspaceTls, []⟩],
    params := pipelineParamsOf inp,
    results :=
      [⟨pipelineResultPreBuildImageDigest, []⟩, ⟨pipelineResultGitArchive, []⟩],
    steps :=
      [{ name := gs "git-clone-and-settings",
         image := inp.recipe.image,
         runAsUser := some 0,
         computeResources :=
           some (resourcesOf limits.defaultRequestMemory limits.defaultRequestCPU
             limits.defaultLimitCPU),
         script := gitScript inp.db inp.recipe ++ gs "\n" ++
           createBuildScript (assembledBuild ext inp.tool inp.recipe),
         env :=
           [⟨pipelineParamCacheUrl, paramRef pipelineParamCacheUrl, none⟩,
            ⟨gs "GIT_TOKEN", [], some ⟨gitSecretName, gitSecretTokenKey, true⟩⟩] },
       { name := gs "preprocessor",
         image := inp.buildRequestProcessorImage,
         imagePullPolicy := some (pullPolicy inp.buildRequestProcessorImage),
         runAsUser := some 0,
         env := [⟨pipelineParamCacheUrl, paramRef pipelineParamCacheUrl, none⟩],
         computeResources :=
           some (resourcesOf limits.defaultRequestMemory limits.defaultRequestCPU
             limits.defaultLimitCPU),
         script := ext.installKeystoreIntoBRP [preprocessorArgs inp] },
       { name := gs "create-pre-build-source",
         image := inp.buildRequestProcessorImage,
         imagePullPolicy := some (pullPolicy inp.buildRequestProcessorImage),
         runAsUser := some 0,
         env := secretVariables inp.jbsConfig,
         computeResources :=
           some (resourcesOf limits.defaultBuildRequestMemory limits.defaultRequestCPU
             limits.defaultLimitCPU),
         script := createKonfluxScripts (kfOf inp) (konfluxScriptOf ext inp) ++ gs "\n" ++
           ext.installKeystoreIntoBRP [pbc.2.2.2] },
       { name := gs "create-pre-build-image",
         image := taImageOf ext,
         imagePullPolicy := some PullPolicy.ifNotPresent,
         runAsUser := some 0,
         env := secretVariables inp.jbsConfig,
         computeResources :=
           some (resourcesOf limits.defaultBuildRequestMemory limits.defaultRequestCPU
             limits.defaultLimitCPU),
         script := pbc.1 }] }

/-- The `pre-build` pipeline task wrapping `buildSetupTaskSpec`. -/
def preBuildPipelineTask (ext : Ext) (inp : Inputs) (limits : MemLimits) : PipelineTask :=
  { name := preBuildTaskName,
    taskSpec := some (buildSetupTaskSpec ext inp limits),
    params := [],
    workspaces :=
      [⟨workspaceBuildSettings, workspaceBuildSettings⟩,
       ⟨workspaceSource, workspaceSource⟩,
       ⟨workspaceTls, workspaceTls⟩] }

/-- The delegated (container-builds) build stage: a remote task reference
resolved over http, carrying the five explicit arguments. -/
def remoteBuildPipelineTask (inp : Inputs) : PipelineTask :=
  { name := buildTaskName,
    runAfter := runAfterOf inp,
    taskRef := some
      { resolver := gs "http",
        params :=
          [⟨gs "url", ⟨ParamType.string, konfluxBuildDefinitions, []⟩⟩] },
    timeoutHours := some defaultTimeout,
    params :=
      [⟨gs "DOCKERFILE", ⟨ParamType.string, gs ".jbs/Containerfile", []⟩⟩,
       ⟨gs "IMAGE", ⟨ParamType.string, registryArgsWithDefaults inp.jbsConfig inp.buildId, []⟩⟩,
       ⟨gs "SOURCE_ARTIFACT", ⟨ParamType.string, preBuildImageOf inp, []⟩⟩,
       ⟨gs "ORAS_OPTIONS", ⟨ParamType.string, orasOptionsOf inp.jbsConfig, []⟩⟩,
       ⟨gs "TLSVERIFY", ⟨ParamType.string, tlsVerifyOf inp.jbsConfig, []⟩⟩] }

/-- The direct-execution build task spec: restore source, run the build
script, deploy ant artifacts, store the output archive. -/
def buildTaskSpecEmbedded (ext : Ext) (inp : Inputs) (limits : MemLimits) : TaskSpec :=
  let pbc := pipelineBuildCommands inp.db.name inp.db inp.jbsConfig inp.buildId
  let oras := orasOptionsOf inp.jbsConfig
  { workspaces :=
      [⟨workspaceBuildSettings, []⟩, ⟨workspaceSource, workspaceMount⟩, ⟨workspaceTls, []⟩],
    params := pipelineParamsOf inp ++
      [⟨pipelineResultPreBuildImageDigest, ParamType.string, [], none⟩],
    results := [⟨pipelineResultImage, []⟩, ⟨pipelineResultImageDigest, []⟩],
    steps :=
      [{ name := gs "restore-pre-build-source",
         image := taImageOf ext,
         imagePullPolicy := some PullPolicy.ifNotPresent,
         runAsUser := some 0,
         env := secretVariables inp.jbsConfig,
         script :=
           gs "echo \"Restoring source to workspace : $(workspaces.source.path)\"\nexport ORAS_OPTIONS=\"" ++
             oras ++ gs "\"\nuse-archive $(params." ++ pipelineResultPreBuildImageDigest ++
             gs ")=$(workspaces.source.path)/source\nmv $(workspaces.source.path)/source/.jbs/build.sh $(workspaces.source.path)" },
       { timeoutHours := some defaultTimeout,
         name := gs "build",
         image := inp.recipe.image,
         imagePullPolicy := some (pullPolicy inp.buildRequestProcessorImage),
         workingDir := gs "$(workspaces." ++ workspaceSource ++ gs ".path)/source",
         runAsUser := some 0,
         env := toolEnv inp.recipe inp.db ++
           [⟨pipelineParamCacheUrl, paramRef pipelineParamCacheUrl, none⟩],
         computeResources :=
           some (resourcesOf limits.buildRequestMemory limits.buildRequestCPU
             limits.buildLimitCPU),
         args := [gs "$(params.GOALS[*])"],
         script := gs "$(workspaces." ++ workspaceSource ++ gs ".path)/build.sh \"$@\"" },
       { name := gs "deploy-ant-artifacts",
         image := inp.buildRequestProcessorImage,
         imagePullPolicy := some (pullPolicy inp.buildRequestProcessorImage),
         runAsUser := some 0,
         env := secretVariables inp.jbsConfig,
         computeResources :=
           some (resourcesOf limits.defaultBuildRequestMemory limits.defaultRequestCPU
             limits.defaultLimitCPU),
         script := ext.installKeystoreIntoBRP [pbc.2.1] },
       { name := gs "store-post-build-artifacts",
         image := taImageOf ext,
         imagePullPolicy := some PullPolicy.ifNotPresent,
         runAsUser := some 0,
         env := secretVariables inp.jbsConfig,
         script :=
           gs "echo \"Creating post-build-image archive\"\nexport ORAS_OPTIONS=\"" ++ oras ++
             gs " --image-spec=v1.0 --artifact-type application/vnd.oci.image.config.v1+json --no-tty --format=json\"\nIMGURL=" ++
             registryArgsWithDefaults inp.jbsConfig (inp.buildId ++ gs "-artifacts") ++
             gs "\ncreate-archive --store $IMGURL /tmp/artifacts=$(workspaces.source.path)/artifacts | tee /tmp/oras-create.json\nIMGDIGEST=$(cat /tmp/oras-create.json | grep -Ev '(Prepared artifact|Artifacts created)' | jq -r '.digest')\necho \"Storing IMGURL $IMGURL and IMGDIGEST $IMGDIGEST\"\necho -n \"$IMGURL\" >> $(results." ++
             pipelineResultImage ++ gs ".path)\necho -n \"$IMGDIGEST\" >> $(results." ++
             pipelineResultImageDigest ++ gs ".path)\n" }] }

/-- The direct-execution `build` pipeline task wrapping
`buildTaskSpecEmbedded`. -/
def buildPipelineTaskEmbedded (ext : Ext) (inp : Inputs) (limits : MemLimits) : PipelineTask :=
  { name := buildTaskName,
    runAfter := runAfterOf inp,
    taskSpec := some (buildTaskSpecEmbedded ext inp limits),
    timeoutHours := some defaultTimeout,
    params :=
      [⟨pipelineResultPreBuildImageDigest, ⟨ParamType.string, preBuildImageOf inp, []⟩⟩],
    workspaces :=
      [⟨workspaceBuildSettings, workspaceBuildSettings⟩,
       ⟨workspaceSource, workspaceSource⟩,
       ⟨workspaceTls, workspaceTls⟩] }

/-- The post-build task spec: restore the output archive, then verify and
check for contaminants. -/
def postBuildTaskSpec (ext : Ext) (inp : Inputs) (limits : MemLimits) : TaskSpec :=
  let pbc := pipelineBuildCommands inp.db.name inp.db inp.jbsConfig inp.buildId
  let oras := orasOptionsOf inp.jbsConfig
  { workspaces :=
      [⟨workspaceBuildSettings, []⟩, ⟨workspaceSource, workspaceMount⟩, ⟨workspaceTls, []⟩],
    params := pipelineParamsOf inp ++
      [⟨pipelineResultPreBuildImageDigest, ParamType.string, [], none⟩],
    results :=
      [⟨pipelineResultContaminants, []⟩, ⟨pipelineResultDeployedResources, []⟩,
       ⟨pipelineResultPassedVerification, []⟩, ⟨pipelineResultVerificationResult, []⟩],
    steps :=
      [{ name := gs "restore-post-build-artifacts",
         image := taImageOf ext,
         imagePullPolicy := some PullPolicy.ifNotPresent,
         runAsUser := some 0,
         env := secretVariables inp.jbsConfig,
         script :=
           gs "echo \"Restoring artifacts to workspace : $(workspaces.source.path)\"\nexport ORAS_OPTIONS=\"" ++
             oras ++ gs "\"\nURL=" ++ registryArgsWithDefaults inp.jbsConfig [] ++
             gs "\nDIGEST=$(tasks." ++ buildTaskName ++
             gs ".results.IMAGE_DIGEST)\nAARCHIVE=$(oras manifest fetch $ORAS_OPTIONS $URL@$DIGEST | jq --raw-output '.layers[0].digest')\necho \"URL $URL DIGEST $DIGEST AARCHIVE $AARCHIVE\"\nuse-archive oci:$URL@$AARCHIVE=$(workspaces.source.path)/artifacts" },
       { name := gs "verify-and-check-for-contaminates",
         image := inp.buildRequestProcessorImage,
         imagePullPolicy := some (pullPolicy inp.buildRequestProcessorImage),
         runAsUser := some 0,
         env := secretVariables inp.jbsConfig,
         computeResources :=
           some (resourcesOf limits.defaultBuildRequestMemory limits.defaultRequestCPU
             limits.defaultLimitCPU),
         script :=
           ext.installKeystoreIntoBRP [verifyParameters inp.jbsConfig inp.recipe, pbc.2.2.1] }] }

/-- The `post-build` pipeline task wrapping `postBuildTaskSpec`. -/
def postBuildPipelineTask (ext : Ext) (inp : Inputs) (limits : MemLimits) : PipelineTask :=
  { name := postBuildTaskName,
    runAfter := runAfterBuildOf inp,
    taskSpec := some (postBuildTaskSpec ext inp limits),
    timeoutHours := some defaultTimeout,
    params :=
      [⟨pipelineResultPreBuildImageDigest, ⟨ParamType.string, preBuildImageOf inp, []⟩⟩],
    workspaces :=
      [⟨workspaceBuildSettings, workspaceBuildSettings⟩,
       ⟨workspaceSource, workspaceSource⟩,
       ⟨workspaceTls, workspaceTls⟩] }

/-- Re-exposure of a task's results at the plan level through
`$(tasks.<task>.results.<result>)` references. -/
def resultRefs (taskName : Str) (results : List TaskResult) : List PipelineResult :=
  results.map (fun i =>
    ⟨i.name, i.description,
      ⟨ParamType.string,
        gs "$(tasks." ++ taskName ++ gs ".results." ++ i.name ++ gs ")", []⟩⟩)

/-- In-place update of one list element (the `ps.Tasks[i]` mutation of
the fan-out loop). -/
def listModify : List α → Nat → (α → α) → List α
  | [], _, _ => []
  | x :: xs, 0, f => f x :: xs
  | x :: xs, n + 1, f => x :: listModify xs n f

/-- One task's parameter-binding append of the fan-out loop. -/
def addParamBinding (name : Str) (value : ParamValue) (t : PipelineTask) : PipelineTask :=
  { t with params := t.params ++ [⟨name, value⟩] }

/-- The reference value the fan-out loop binds: string parameters as a
single `$(params.<name>)` value, array parameters as a full-array
`$(params.<name>[*])` expansion. -/
def fanOutValue (i : ParamSpec) : ParamValue :=
  match i.type with
  | ParamType.string => ⟨ParamType.string, paramRef i.name, []⟩
  | ParamType.array => ⟨ParamType.array, [], [gs "$(params." ++ i.name ++ gs "[*])"]⟩

/-- One iteration of the fan-out loop: the parameter declaration is
appended to the plan's parameter list, and its binding to the parameter
lists of the tasks at positions 0 and 1 (and 2 when the preparatory
stage is present). -/
def fanOutStep (required : Bool) (ps : PipelineSpec) (i : ParamSpec) : PipelineSpec :=
  let value := fanOutValue i
  let ps :=
    { ps with
      params := ps.params ++ [(⟨i.name, i.type, i.description, i.dflt⟩ : ParamSpec)],
      tasks := listModify ps.tasks 0 (addParamBinding i.name value) }
  if required then
    let ps := { ps with tasks := listModify ps.tasks 1 (addParamBinding i.name value) }
    { ps with tasks := listModify ps.tasks 2 (addParamBinding i.name value) }
  else
    { ps with tasks := listModify ps.tasks 1 (addParamBinding i.name value) }

/-- The fan-out loop: every declared pipeline-level parameter is appended
to the plan and fanned to the present tasks. -/
def fanOutParams (ps : PipelineSpec) (pipelineParams : List ParamSpec)
    (required : Bool) : PipelineSpec :=
  pipelineParams.foldl (fanOutStep required) ps

/-- The task-graph assembly: the optional preparatory stage, the build
stage (delegated or direct), the post-build stage — each prepended to the
task list, its results re-exposed — then the parameter fan-out. -/
def assemblePipeline (ext : Ext) (inp : Inputs) (limits : MemLimits) : PipelineSpec :=
  let ps : PipelineSpec :=
    { workspaces := [⟨workspaceBuildSettings⟩, ⟨workspaceSource⟩, ⟨workspaceTls⟩] }
  let required := preBuildImageRequired inp
  let ps :=
    if required then
      { ps with
        tasks := [preBuildPipelineTask ext inp limits] ++ ps.tasks,
        results := ps.results ++
          resultRefs preBuildTaskName (buildSetupTaskSpec ext inp limits).results }
    else ps
  let ps :=
    if inp.jbsConfig.spec.containerBuilds then
      { ps with
        tasks := [remoteBuildPipelineTask inp] ++ ps.tasks,
        results := ps.results ++
          [⟨pipelineResultImage, [],
             ⟨ParamType.string,
               gs "$(tasks." ++ buildTaskName ++ gs ".results." ++ pipelineResultImage ++ gs ")",
               []⟩⟩,
           ⟨pipelineResultImageDigest, [],
             ⟨ParamType.string,
               gs "$(tasks." ++ buildTaskName ++ gs ".results." ++ pipelineResultImageDigest ++ gs ")",
               []⟩⟩] }
    else
      { ps with
        tasks := [buildPipelineTaskEmbedded ext inp limits] ++ ps.tasks,
        results := ps.results ++
          resultRefs buildTaskName (buildTaskSpecEmbedded ext inp limits).results }
  let ps :=
    { ps with
      tasks := [postBuildPipelineTask ext inp limits] ++ ps.tasks,
      results := ps.results ++
        resultRefs postBuildTaskName (postBuildTaskSpec ext inp limits).results }
  fanOutParams ps (pipelineParamsOf inp) required

/-- The five-fold return of `createPipelineSpec`: the task graph, the
diagnostic container definition, the portable container description, the
run-build script, and the error flag (`nil`/empty outputs on error, as in
the Go multi-return). -/
structure GoResult where
  ps : Option PipelineSpec
  df : Str
  kf : Str
  script : Str
  err : Bool
deriving DecidableEq

/-- `createPipelineSpec`: plan generation.  A resource-quantity parse
failure aborts with no partial plan; otherwise the four artifacts are
returned together. -/
def createPipelineSpec (ext : Ext) (inp : Inputs) : GoResult :=
  match memoryLimits inp.jbsConfig (clampedAdditionalMemory inp.recipe inp.systemConfig) with
  | none => ⟨none, [], [], [], true⟩
  | some limits =>
    ⟨some (assemblePipeline ext inp limits), dfOf ext inp, kfOf inp, konfluxScriptOf ext inp,
      false⟩

/-! ## Observers over the generated plan -/

/-- Whether the graph contains a task of the given name. -/
def hasTaskNamed (ps : PipelineSpec) (n : Str) : Bool :=
  ps.tasks.any (fun t => t.name = n)

/-- The task of the given name, when present. -/
def findTask (ps : PipelineSpec) (n : Str) : Option PipelineTask :=
  ps.tasks.find? (fun t => t.name = n)

/-- Whether the existing-image index has an entry (of any value) for the
plan's cache key. -/
def hasImageKey (inp : Inputs) : Bool :=
  inp.existingImages.any (fun e => e.1 = inp.recipe.image ++ gs "-" ++ inp.recipe.tool)

/-- The name under which the build stage receives its upstream digest:
`SOURCE_ARTIFACT` for the delegated build task, the pre-build digest
result name for the direct one. -/
def buildDigestParamName (inp : Inputs) : Str :=
  if inp.jbsConfig.spec.containerBuilds then gs "SOURCE_ARTIFACT"
  else pipelineResultPreBuildImageDigest

/-- The build task's `runAfter` list, when the task is present. -/
def buildTaskRunAfter (ps : PipelineSpec) : Option (List Str) :=
  (findTask ps buildTaskName).map (fun t => t.runAfter)

/-- The string value bound to the build task's upstream-digest
parameter. -/
def buildTaskDigestValue (inp : Inputs) (ps : PipelineSpec) : Option Str :=
  (findTask ps buildTaskName).bind (fun t =>
    (t.params.find? (fun p => p.name = buildDigestParamName inp)).map
      (fun p => p.value.stringVal))

/-- The script of the preparatory stage's first step (the step that
writes `build.sh`). -/
def preBuildFirstStepScript (r : GoResult) : Option Str :=
  (((r.ps.bind (fun ps => findTask ps preBuildTaskName)).bind (fun t => t.taskSpec)).bind
    (fun ts => ts.steps.head?)).map (fun st => st.script)

/-- A task after the fan-out loop: the parameter bindings of the whole
declaration list appended. -/
def fanAppend (l : List ParamSpec) (t : PipelineTask) : PipelineTask :=
  { t with params := t.params ++ l.map (fun i => ⟨i.name, fanOutValue i⟩) }

/-! ## Concrete sample inputs (used by the concrete evaluations below) -/

/-- A small concrete instantiation of the external compile-time inputs. -/
def extSample : Ext :=
  { mavenBuild := gs "mvn-build",
    mavenSettings := gs "mvn-settings",
    gradleBuild := gs "gradle-build",
    sbtBuild := gs "sbt-build",
    antBuild := gs "ant-build",
    packageTemplate := gs "install {URI} {FILENAME} {SHA256} {TYPE} {BINARY_PATH} {PACKAGE_NAME}\n",
    dockerfileEntryScript := gs "entry",
    buildEntryScript :=
      gs "{{BUILD}}\n{{INSTALL_PACKAGE_SCRIPT}}\n{{PRE_BUILD_SCRIPT}}\n{{POST_BUILD_SCRIPT}}\ncd $(workspaces.source.path)",
    buildTrustedArtifacts := gs "FROM ta-image\n",
    installKeystoreScript := gs "install-keystore",
    installKeystoreIntoBRP := fun args =>
      gs "brp " ++ goJoin (args.map (fun a => goJoin a (gs " "))) (gs " ; ") }

/-- A small concrete invocation: a maven recipe, defaults everywhere,
empty existing-image index. -/
def inpSample : Inputs :=
  { tool := gs "maven",
    commitTime := 1234,
    jbsConfig := {},
    systemConfig := {},
    recipe := { tool := gs "maven", image := gs "builder-image", javaVersion := gs "11" },
    db := { name := gs "db1" },
    paramValues := [],
    buildRequestProcessorImage := gs "brp-image",
    buildId := gs "b1",
    existingImages := [] }

/-- `inpSample` with an existing-image entry whose value is the empty
string. -/
def inpEmptyEntry : Inputs :=
  { inpSample with existingImages := [(gs "builder-image-maven", [])] }

/-- `inpSample` with a cache hit: the index maps the key to a concrete
digest reference. -/
def inpHit : Inputs :=
  { inpSample with existingImages := [(gs "builder-image-maven", gs "quay.io/x@sha256:abc")] }

/-- `inpSample` with the container-builds feature flag on (the delegated
build stage). -/
def inpCB : Inputs :=
  { inpSample with jbsConfig := { spec := { containerBuilds := true } } }

/-- `inpSample` with a malformed resource-quantity override. -/
def inpBadQuantity : Inputs :=
  { inpSample with jbsConfig := { spec := { buildSettings := { taskRequestMemory := gs "abc" } } } }

/-- The memory limits of the default tenant config (512Mi/1024Mi memory,
10m/300m/300m/2 CPU, in canonical units). -/
def memLimitsSample : MemLimits :=
  ⟨⟨536870912, 1⟩, ⟨1073741824, 1⟩, ⟨10, 1000⟩, ⟨300, 1000⟩, ⟨300, 1000⟩, ⟨2, 1⟩,
    ⟨1073741824, 1⟩⟩

/-- The generated task graph of the sample invocation. -/
def psSample : PipelineSpec := assemblePipeline extSample inpSample memLimitsSample

/-- A recipe requesting 2048 additional mebibytes. -/
def recipeC6 : BuildRecipe := { additionalMemory := 2048 }

/-- A system config whose additional-memory ceiling is 1024. -/
def sysC6 : SystemConfig := { spec := { maxAdditionalMemory := 1024 } }

/-- A well-formed tar download. -/
def dlOk : AdditionalDownload :=
  { uri := gs "http://u1", fileType := gs "tar", binaryPath := gs "/bin/one",
    fileName := gs "one.tar", sha256 := gs "s1" }

/-- A tar download with the required binary path missing. -/
def dlNoPath : AdditionalDownload :=
  { uri := gs "http://u2", fileType := gs "tar", binaryPath := [],
    fileName := gs "two.tar", sha256 := gs "s2" }

/-- A recipe whose download list has a valid package followed by one
with a missing required field. -/
def recipeC4 : BuildRecipe := { additionalDownloads := [dlOk, dlNoPath] }

/-- A parameter list with a string and an array entry, none of them the
cache URL. -/
def pvC8 : List Param :=
  [⟨gs "URL", ⟨ParamType.string, gs "http://example", []⟩⟩,
   ⟨gs "GOALS", ⟨ParamType.array, [], [gs "clean", gs "install"]⟩⟩]

/-! ## Lemmas about the string model -/

theorem goHasPre_refl (s : Str) : goHasPre s s = true := by
  induction s with
  | nil => rfl
  | cons c rest ih => simp [goHasPre, ih]

theorem replaceAll_self (pat repl : Str) (h : pat ≠ []) :
    replaceAll pat pat repl = repl := by
  match pat with
  | [] => exact absurd rfl h
  | p :: ps =>
    show replaceAllAux p ps repl (p :: ps).length (p :: ps) = repl
    rw [List.length_cons, replaceAllAux]
    rw [if_pos (goHasPre_refl (p :: ps)), List.drop_length]
    rw [show replaceAllAux p ps repl ps.length [] = [] from by cases ps.length <;> rfl]
    exact List.append_nil repl

theorem replaceAllAux_of_not_contains (p : Char) (ps repl : Str) :
    ∀ (fuel : Nat) (s : Str), goContains s (p :: ps) = false →
      replaceAllAux p ps repl fuel s = s := by
  intro fuel
  induction fuel with
  | zero => intro s _; cases s <;> rfl
  | succ fuel ih =>
    intro s h
    cases s with
    | nil => rfl
    | cons c rest =>
      rw [goContains, Bool.or_eq_false_iff] at h
      rw [replaceAllAux, if_neg (by simp [h.1]), ih rest h.2]

theorem replaceAll_of_not_contains (s pat repl : Str) (h : goContains s pat = false) :
    replaceAll s pat repl = s := by
  match pat with
  | [] => rw [replaceAll]
  | p :: ps => exact replaceAllAux_of_not_contains p ps repl s.length s h

theorem substParams_of_not_contains (s : Str) (pv : List Param)
    (h : ∀ p ∈ pv, p.value.type = ParamType.string →
      goContains s (paramRef p.name) = false) :
    substParams s pv = s := by
  induction pv with
  | nil => rfl
  | cons p rest ih =>
    rw [substParams, List.foldl_cons]
    have hstep :
        (match p.value.type with
          | ParamType.string => replaceAll s (paramRef p.name) p.value.stringVal
          | ParamType.array => s) = s := by
      cases htype : p.value.type with
      | string => exact replaceAll_of_not_contains _ _ _ (h p (by simp) htype)
      | array => rfl
    rw [hstep]
    exact ih (fun q hq => h q (by simp [hq]))

theorem option_bind_const_none {α β : Type} (o : Option α) :
    (o.bind fun _ => (none : Option β)) = none := by
  cases o <;> rfl

/-! ## C3 — determinism of plan generation -/

/-- C3: plan generation is deterministic — two invocations of
`createPipelineSpec` on equal inputs (the compile-time script catalog,
the recipe, configs, build identity, parameter values, commit time and
existing-image index) return equal outputs: the task graph and all three
text artifacts.  The embedding is a pure function of exactly these
inputs, so equal inputs give equal results. -/
theorem c3_deterministic (ext₁ ext₂ : Ext) (a b : Inputs)
    (hext : ext₁ = ext₂) (hinp : a = b) :
    createPipelineSpec ext₁ a = createPipelineSpec ext₂ b := by
  rw [hext, hinp]

theorem c3_deterministic_witness :
    createPipelineSpec extSample inpSample = createPipelineSpec extSample inpSample :=
  c3_deterministic extSample extSample inpSample inpSample rfl rfl

/-! ## C9 — a malformed resource quantity aborts with no partial plan -/

/-- C9: if any of the six configured resource-quantity override strings
(each after its empty-fallback default) fails to parse, `createPipelineSpec`
returns the error result: a `none` task graph and empty diagnostic,
portable and script texts. -/
theorem c9_parse_failure_aborts (ext : Ext) (inp : Inputs)
    (h : parseQuantity (settingOrDefault inp.jbsConfig.spec.buildSettings.taskRequestMemory (gs "512Mi")) = none ∨
      parseQuantity (settingOrDefault inp.jbsConfig.spec.buildSettings.buildRequestMemory (gs "1024Mi")) = none ∨
      parseQuantity (settingOrDefault inp.jbsConfig.spec.buildSettings.taskRequestCPU (gs "10m")) = none ∨
      parseQuantity (settingOrDefault inp.jbsConfig.spec.buildSettings.taskLimitCPU (gs "300m")) = none ∨
      parseQuantity (settingOrDefault inp.jbsConfig.spec.buildSettings.buildRequestCPU (gs "300m")) = none ∨
      parseQuantity (settingOrDefault inp.jbsConfig.spec.buildSettings.buildLimitCPU (gs "2")) = none) :
    createPipelineSpec ext inp = ⟨none, [], [], [], true⟩ := by
  have hml : memoryLimits inp.jbsConfig
      (clampedAdditionalMemory inp.recipe inp.systemConfig) = none := by
    unfold memoryLimits
    rcases h with h | h | h | h | h | h <;>
      simp [h, option_bind_const_none]
  simp [createPipelineSpec, hml]

theorem c9_parse_failure_aborts_witness :
    parseQuantity (settingOrDefault inpBadQuantity.jbsConfig.spec.buildSettings.taskRequestMemory (gs "512Mi")) = none ∧
    createPipelineSpec extSample inpBadQuantity = ⟨none, [], [], [], true⟩ :=
  ⟨by decide, c9_parse_failure_aborts extSample inpBadQuantity (Or.inl (by decide))⟩

/-! ## C7 — tag truncation -/

/-- C7: for a tag suffix with no colon, the prefixed tag is
`prependTag_suffix`; when that exceeds 128 characters the resolved tag is
its first 128 characters — exactly 128 long and a prefix of the
untruncated value — and otherwise it is returned unmodified. -/
theorem c7_tag_truncation (imageId prependTag : Str)
    (hnc : lastIndexOf imageId ':' = none) (hp : prependTag ≠ []) :
    ((prependTag ++ gs "_" ++ imageId).length > 128 →
      prependTagToImage imageId prependTag = (prependTag ++ gs "_" ++ imageId).take 128 ∧
      (prependTagToImage imageId prependTag).length = 128 ∧
      prependTagToImage imageId prependTag <+: prependTag ++ gs "_" ++ imageId) ∧
    ((prependTag ++ gs "_" ++ imageId).length ≤ 128 →
      prependTagToImage imageId prependTag = prependTag ++ gs "_" ++ imageId) := by
  have hred : prependTagToImage imageId prependTag =
      if (prependTag ++ gs "_" ++ imageId).length > 128 then
        (prependTag ++ gs "_" ++ imageId).take 128
      else prependTag ++ gs "_" ++ imageId := by
    unfold prependTagToImage
    rw [hnc]
    simp only [hp, if_true, ne_eq, not_false_eq_true, List.nil_append]
  constructor
  · intro hlen
    have heq : prependTagToImage imageId prependTag =
        (prependTag ++ gs "_" ++ imageId).take 128 := by
      rw [hred, if_pos hlen]
    refine ⟨heq, ?_, ?_⟩
    · rw [heq, List.length_take]
      omega
    · rw [heq]
      exact ⟨(prependTag ++ gs "_" ++ imageId).drop 128, List.take_append_drop _ _⟩
  · intro hlen
    rw [hred, if_neg (by omega)]

theorem c7_tag_truncation_witness :
    prependTagToImage (List.replicate 130 'a') (gs "p") =
      (gs "p" ++ gs "_" ++ List.replicate 130 'a').take 128 ∧
    (prependTagToImage (List.replicate 130 'a') (gs "p")).length = 128 ∧
    prependTagToImage (List.replicate 130 'a') (gs "p") <+:
      gs "p" ++ gs "_" ++ List.replicate 130 'a' :=
  (c7_tag_truncation (List.replicate 130 'a') (gs "p") (by decide) (by decide)).1 (by decide)

/-! ## C10 — the empty-prefix asymmetry of `prependTagToImage` -/

/-- C10: with an empty prepend tag, an image id with no colon is returned
unchanged (no underscore, up to 128-character truncation), but for an id
with a colon the portion after the last colon always receives the
underscore separator — the resulting tag begins with `_`. -/
theorem c10_empty_prefix_asymmetry (imageId : Str) :
    (lastIndexOf imageId ':' = none →
      prependTagToImage imageId [] =
        (if imageId.length > 128 then imageId.take 128 else imageId)) ∧
    (∀ i, lastIndexOf imageId ':' = some i →
      prependTagToImage imageId [] =
        imageId.take i ++ gs ":" ++
          (if (gs "_" ++ imageId.drop (i + 1)).length > 128 then
            (gs "_" ++ imageId.drop (i + 1)).take 128
          else gs "_" ++ imageId.drop (i + 1)) ∧
      (if (gs "_" ++ imageId.drop (i + 1)).length > 128 then
          (gs "_" ++ imageId.drop (i + 1)).take 128
        else gs "_" ++ imageId.drop (i + 1)).head? = some '_') := by
  constructor
  · intro hnc
    simp [prependTagToImage, hnc]
  · intro i hi
    constructor
    · simp [prependTagToImage, hi]
    · split <;> rfl

theorem c10_empty_prefix_asymmetry_witness :
    prependTagToImage (gs "abc") [] = gs "abc" ∧
    prependTagToImage (gs "r:t") [] = gs "r:_t" :=
  ⟨((c10_empty_prefix_asymmetry (gs "abc")).1 (by decide)).trans (by decide),
   (((c10_empty_prefix_asymmetry (gs "r:t")).2 1 (by decide)).1).trans (by decide)⟩

/-! ## C6 — the additional-memory cap and where the increment lands -/

/-- C6: a requested additional memory above a configured positive ceiling
is clamped to the ceiling, and the (possibly clamped) value, interpreted
as mebibytes, is added to the build-stage request memory and the default
request memory — every other quantity (both request memories' defaults
and all four CPU quantities) is unchanged. -/
theorem c6_memory_cap (jbsConfig : JBSConfig) (recipe : BuildRecipe)
    (systemConfig : SystemConfig) (base : MemLimits)
    (hbase : memoryLimits jbsConfig 0 = some base) :
    (systemConfig.spec.maxAdditionalMemory > 0 →
      recipe.additionalMemory > systemConfig.spec.maxAdditionalMemory →
      clampedAdditionalMemory recipe systemConfig = systemConfig.spec.maxAdditionalMemory) ∧
    (clampedAdditionalMemory recipe systemConfig > 0 →
      memoryLimits jbsConfig (clampedAdditionalMemory recipe systemConfig) =
        some { base with
          buildRequestMemory := (base.defaultBuildRequestMemory).add
            (mustParse (intToStr (clampedAdditionalMemory recipe systemConfig) ++ gs "Mi")),
          defaultRequestMemory := (base.defaultRequestMemory).add
            (mustParse (intToStr (clampedAdditionalMemory recipe systemConfig) ++ gs "Mi")) }) := by
  simp only [memoryLimits] at hbase
  obtain ⟨q1, hq1⟩ : ∃ q,
      parseQuantity (settingOrDefault jbsConfig.spec.buildSettings.taskRequestMemory (gs "512Mi")) = some q := by
    cases hq : parseQuantity (settingOrDefault jbsConfig.spec.buildSettings.taskRequestMemory (gs "512Mi"))
    · rw [hq] at hbase; simp at hbase
    · exact ⟨_, rfl⟩
  rw [hq1, Option.some_bind] at hbase
  obtain ⟨q2, hq2⟩ : ∃ q,
      parseQuantity (settingOrDefault jbsConfig.spec.buildSettings.buildRequestMemory (gs "1024Mi")) = some q := by
    cases hq : parseQuantity (settingOrDefault jbsConfig.spec.buildSettings.buildRequestMemory (gs "1024Mi"))
    · rw [hq] at hbase; simp at hbase
    · exact ⟨_, rfl⟩
  rw [hq2, Option.some_bind] at hbase
  obtain ⟨q3, hq3⟩ : ∃ q,
      parseQuantity (settingOrDefault jbsConfig.spec.buildSettings.taskRequestCPU (gs "10m")) = some q := by
    cases hq : parseQuantity (settingOrDefault jbsConfig.spec.buildSettings.taskRequestCPU (gs "10m"))
    · rw [hq] at hbase; simp at hbase
    · exact ⟨_, rfl⟩
  rw [hq3, Option.some_bind] at hbase
  obtain ⟨q4, hq4⟩ : ∃ q,
      parseQuantity (settingOrDefault jbsConfig.spec.buildSettings.taskLimitCPU (gs "300m")) = some q := by
    cases hq : parseQuantity (settingOrDefault jbsConfig.spec.buildSettings.taskLimitCPU (gs "300m"))
    · rw [hq] at hbase; simp at hbase
    · exact ⟨_, rfl⟩
  rw [hq4, Option.some_bind] at hbase
  obtain ⟨q5, hq5⟩ : ∃ q,
      parseQuantity (settingOrDefault jbsConfig.spec.buildSettings.buildRequestCPU (gs "300m")) = some q := by
    cases hq : parseQuantity (settingOrDefault jbsConfig.spec.buildSettings.buildRequestCPU (gs "300m"))
    · rw [hq] at hbase; simp at hbase
    · exact ⟨_, rfl⟩
  rw [hq5, Option.some_bind] at hbase
  obtain ⟨q6, hq6⟩ : ∃ q,
      parseQuantity (settingOrDefault jbsConfig.spec.buildSettings.buildLimitCPU (gs "2")) = some q := by
    cases hq : parseQuantity (settingOrDefault jbsConfig.spec.buildSettings.buildLimitCPU (gs "2"))
    · rw [hq] at hbase; simp at hbase
    · exact ⟨_, rfl⟩
  rw [hq6, Option.some_bind] at hbase
  rw [if_neg (by omega)] at hbase
  injection hbase with hb
  constructor
  · intro h1 h2
    simp [clampedAdditionalMemory, h1, h2]
  · intro ham
    simp only [memoryLimits]
    rw [hq1, Option.some_bind, hq2, Option.some_bind, hq3, Option.some_bind,
      hq4, Option.some_bind, hq5, Option.some_bind, hq6, Option.some_bind,
      if_pos ham, ← hb]

theorem c6_memory_cap_witness :
    memoryLimits ({} : JBSConfig) 0 = some memLimitsSample ∧
    ((sysC6.spec.maxAdditionalMemory > 0 →
      recipeC6.additionalMemory > sysC6.spec.maxAdditionalMemory →
      clampedAdditionalMemory recipeC6 sysC6 = sysC6.spec.maxAdditionalMemory) ∧
    (clampedAdditionalMemory recipeC6 sysC6 > 0 →
      memoryLimits ({} : JBSConfig) (clampedAdditionalMemory recipeC6 sysC6) =
        some { memLimitsSample with
          buildRequestMemory := (memLimitsSample.defaultBuildRequestMemory).add
            (mustParse (intToStr (clampedAdditionalMemory recipeC6 sysC6) ++ gs "Mi")),
          defaultRequestMemory := (memLimitsSample.defaultRequestMemory).add
            (mustParse (intToStr (clampedAdditionalMemory recipeC6 sysC6) ++ gs "Mi")) })) :=
  ⟨by decide, c6_memory_cap {} recipeC6 sysC6 memLimitsSample (by decide)⟩

/-! ## C4 — the install-section assembly on a missing required field -/

theorem additionalPackagesLoop_reaches (ext : Ext) (rest : List AdditionalDownload) :
    ∀ (pre : List AdditionalDownload) (c : Nat) (acc : Str),
      (∀ j ∈ pre, j.fileType = gs "tar" ∨ j.fileType = gs "executable" ∨ j.fileType = gs "rpm") →
      ∃ acc2, additionalPackagesLoop ext c acc (pre ++ rest) =
        additionalPackagesLoop ext (c + pre.length) acc2 rest := by
  intro pre
  induction pre with
  | nil =>
    intro c acc _
    exact ⟨acc, by simp⟩
  | cons j pre ih =>
    intro c acc hk
    have hj := hk j (by simp)
    have htail : ∀ x ∈ pre, x.fileType = gs "tar" ∨ x.fileType = gs "executable" ∨
        x.fileType = gs "rpm" := fun x hx => hk x (by simp [hx])
    have harith : c + 1 + pre.length = c + (j :: pre).length := by simp; omega
    rcases hj with h | h | h
    · rw [List.cons_append, additionalPackagesLoop, if_pos h]
      obtain ⟨acc2, hacc⟩ := ih (c + 1) _ htail
      rw [hacc, harith]
      exact ⟨acc2, rfl⟩
    · have hne : ¬j.fileType = gs "tar" := by rw [h]; decide
      rw [List.cons_append, additionalPackagesLoop, if_neg hne, if_pos h]
      obtain ⟨acc2, hacc⟩ := ih (c + 1) _ htail
      rw [hacc, harith]
      exact ⟨acc2, rfl⟩
    · have hne : ¬j.fileType = gs "tar" := by rw [h]; decide
      have hne2 : ¬j.fileType = gs "executable" := by rw [h]; decide
      rw [List.cons_append, additionalPackagesLoop, if_neg hne, if_neg hne2, if_pos h]
      obtain ⟨acc2, hacc⟩ := ih (c + 1) _ htail
      rw [hacc, harith]
      exact ⟨acc2, rfl⟩

/-- C4 (counterexample): with a valid tar package followed by a tar
package missing its binary path, the assembled install section is the
failing line plus the second package's own fragment — the first package's
fragment has been discarded, not preserved. -/
theorem c4_counterexample :
    additionalPackages extSample recipeC4 =
      (gs "echo 'Binary path not specified for package http://u2'; exit 1") ++
        packageFragment extSample 1 dlNoPath ∧
    goContains (additionalPackages extSample recipeC4) (packageFragment extSample 0 dlOk) =
      false := by
  constructor
  · decide
  · decide

/-- C4 (amended): a package with a missing required field makes the
failing shell line *replace* the output accumulated so far — fragments of
earlier packages are discarded — after which the offending package's own
fragment is appended and the loop continues with the later packages; an
unrecognized file type discards the accumulated output and ends
processing with only its failing line. -/
theorem c4_missing_field_install (ext : Ext) (recipe : BuildRecipe)
    (pre suf : List AdditionalDownload) (i : AdditionalDownload)
    (hsplit : recipe.additionalDownloads = pre ++ i :: suf)
    (hpre : ∀ j ∈ pre, j.fileType = gs "tar" ∨ j.fileType = gs "executable" ∨
      j.fileType = gs "rpm") :
    (i.fileType = gs "tar" → i.binaryPath = [] →
      additionalPackages ext recipe =
        additionalPackagesLoop ext (pre.length + 1)
          ((gs "echo 'Binary path not specified for package " ++ i.uri ++ gs "'; exit 1") ++
            packageFragment ext pre.length i) suf) ∧
    (i.fileType = gs "executable" → i.fileName = [] →
      additionalPackages ext recipe =
        additionalPackagesLoop ext (pre.length + 1)
          ((gs "echo 'File name not specified for package " ++ i.uri ++ gs "'; exit 1") ++
            packageFragment ext pre.length i) suf) ∧
    (i.fileType = gs "rpm" → i.packageName = [] →
      additionalPackages ext recipe =
        additionalPackagesLoop ext (pre.length + 1)
          ((gs "echo 'Package name not specified for rpm type'; exit 1") ++
            packageFragment ext pre.length i) suf) ∧
    (i.fileType ≠ gs "tar" → i.fileType ≠ gs "executable" → i.fileType ≠ gs "rpm" →
      additionalPackages ext recipe =
        gs "echo 'Unknown file type " ++ i.fileType ++ gs " for package " ++ i.uri ++
          gs "'; exit 1") := by
  obtain ⟨acc2, hacc⟩ := additionalPackagesLoop_reaches ext (i :: suf) pre 0 [] hpre
  have hbase : additionalPackages ext recipe =
      additionalPackagesLoop ext pre.length acc2 (i :: suf) := by
    rw [additionalPackages, hsplit, hacc]
    simp
  refine ⟨?_, ?_, ?_, ?_⟩
  · intro hft hbp
    rw [hbase, additionalPackagesLoop, if_pos hft, if_pos hbp]
  · intro hft hfn
    have hne : ¬i.fileType = gs "tar" := by rw [hft]; decide
    rw [hbase, additionalPackagesLoop, if_neg hne, if_pos hft, if_pos hfn]
  · intro hft hpn
    have hne : ¬i.fileType = gs "tar" := by rw [hft]; decide
    have hne2 : ¬i.fileType = gs "executable" := by rw [hft]; decide
    rw [hbase, additionalPackagesLoop, if_neg hne, if_neg hne2, if_pos hft, if_pos hpn]
  · intro h1 h2 h3
    rw [hbase, additionalPackagesLoop, if_neg h1, if_neg h2, if_neg h3]

theorem c4_missing_field_install_witness :
    additionalPackages extSample recipeC4 =
      additionalPackagesLoop extSample (List.length [dlOk] + 1)
        ((gs "echo 'Binary path not specified for package http://u2'; exit 1") ++
          packageFragment extSample (List.length [dlOk]) dlNoPath) [] :=
  (c4_missing_field_install extSample recipeC4 [dlOk] [] dlNoPath (by decide)
    (by decide)).1 (by decide) (by decide)

/-! ## C8 — the reconstructed cache URL in substituted scripts -/

/-- C8 (counterexample): a string-typed `CACHE_URL` entry in the supplied
parameter list preempts the fixed local-loopback reconstruction — the
entry's value replaces the reference, so the substitution is not
independent of the parameter list. -/
theorem c8_counterexample :
    doSubstitution (gs "$(params.CACHE_URL)")
      [⟨gs "CACHE_URL", ⟨ParamType.string, gs "OVERRIDDEN", []⟩⟩] 0 [] = gs "OVERRIDDEN" ∧
    gs "OVERRIDDEN" ≠ localCacheUrl 0 [] := by
  exact ⟨by decide, by decide⟩

/-- C8 (amended): `doSubstitution` applies the per-parameter
substitutions first and only then rewrites every remaining
`$(params.CACHE_URL)` occurrence to the fixed local-loopback URL built
from the repository suffix and commit timestamp; for any parameter list
none of whose string-typed entries' references occur in the script (in
particular no `CACHE_URL` entry), the parameter pass leaves the script
unchanged and the cache reference becomes exactly the fixed URL. -/
theorem c8_cache_url_reconstruction (script : Str) (pv : List Param) (t : Int) (r : Str)
    (hpv : ∀ p ∈ pv, p.value.type = ParamType.string →
      goContains script (paramRef p.name) = false) :
    doSubstitution script pv t r =
      replaceAll (replaceAll (replaceAll
        (replaceAll script (gs "$(params.CACHE_URL)") (localCacheUrl t r))
        (gs "$(workspaces.build-settings.path)") (gs "/var/workdir/software/settings"))
        (gs "$(workspaces.source.path)") (gs "/var/workdir/workspace"))
        (gs "$(workspaces.tls.path)") (gs "/var/workdir/software/tls/service-ca.crt") ∧
    (script = gs "$(params.CACHE_URL)" →
      goContains (localCacheUrl t r) (gs "$(workspaces.build-settings.path)") = false →
      goContains (localCacheUrl t r) (gs "$(workspaces.source.path)") = false →
      goContains (localCacheUrl t r) (gs "$(workspaces.tls.path)") = false →
      doSubstitution script pv t r = localCacheUrl t r) := by
  have hsub : substParams script pv = script := substParams_of_not_contains script pv hpv
  constructor
  · rw [doSubstitution, hsub]
  · intro hscript hw1 hw2 hw3
    rw [doSubstitution, hsub, hscript]
    rw [replaceAll_self (gs "$(params.CACHE_URL)") (localCacheUrl t r) (by decide)]
    rw [replaceAll_of_not_contains _ _ _ hw1, replaceAll_of_not_contains _ _ _ hw2,
      replaceAll_of_not_contains _ _ _ hw3]

theorem c8_cache_url_reconstruction_witness :
    doSubstitution (gs "$(params.CACHE_URL)") pvC8 77 (gs "-r1") =
      localCacheUrl 77 (gs "-r1") :=
  (c8_cache_url_reconstruction (gs "$(params.CACHE_URL)") pvC8 77 (gs "-r1")
    (by decide)).2 rfl (by decide) (by decide) (by decide)

/-! ## The shape of the assembled task graph -/

theorem fanOutStep_three (i : ParamSpec) (ws : List PipelineWorkspace)
    (pp : List ParamSpec) (t0 t1 t2 : PipelineTask) (res : List PipelineResult) :
    fanOutStep true ⟨ws, pp, [t0, t1, t2], res⟩ i =
      ⟨ws, pp ++ [i],
        [addParamBinding i.name (fanOutValue i) t0,
         addParamBinding i.name (fanOutValue i) t1,
         addParamBinding i.name (fanOutValue i) t2], res⟩ := rfl

theorem fanOutStep_two (i : ParamSpec) (ws : List PipelineWorkspace)
    (pp : List ParamSpec) (t0 t1 : PipelineTask) (res : List PipelineResult) :
    fanOutStep false ⟨ws, pp, [t0, t1], res⟩ i =
      ⟨ws, pp ++ [i],
        [addParamBinding i.name (fanOutValue i) t0,
         addParamBinding i.name (fanOutValue i) t1], res⟩ := rfl

theorem fanAppend_cons (i : ParamSpec) (l : List ParamSpec) (t : PipelineTask) :
    fanAppend l (addParamBinding i.name (fanOutValue i) t) = fanAppend (i :: l) t := by
  simp [fanAppend, addParamBinding, List.append_assoc]

theorem fanOutParams_three (l : List ParamSpec) :
    ∀ (ws : List PipelineWorkspace) (pp : List ParamSpec) (t0 t1 t2 : PipelineTask)
      (res : List PipelineResult),
      fanOutParams ⟨ws, pp, [t0, t1, t2], res⟩ l true =
        ⟨ws, pp ++ l, [fanAppend l t0, fanAppend l t1, fanAppend l t2], res⟩ := by
  induction l with
  | nil =>
    intro ws pp t0 t1 t2 res
    simp [fanOutParams, fanAppend]
  | cons i l ih =>
    intro ws pp t0 t1 t2 res
    rw [fanOutParams, List.foldl_cons]
    rw [show List.foldl (fanOutStep true) (fanOutStep true ⟨ws, pp, [t0, t1, t2], res⟩ i) l =
      fanOutParams (fanOutStep true ⟨ws, pp, [t0, t1, t2], res⟩ i) l true from rfl]
    rw [fanOutStep_three, ih]
    rw [fanAppend_cons, fanAppend_cons, fanAppend_cons]
    simp [List.append_assoc]

theorem fanOutParams_two (l : List ParamSpec) :
    ∀ (ws : List PipelineWorkspace) (pp : List ParamSpec) (t0 t1 : PipelineTask)
      (res : List PipelineResult),
      fanOutParams ⟨ws, pp, [t0, t1], res⟩ l false =
        ⟨ws, pp ++ l, [fanAppend l t0, fanAppend l t1], res⟩ := by
  induction l with
  | nil =>
    intro ws pp t0 t1 res
    simp [fanOutParams, fanAppend]
  | cons i l ih =>
    intro ws pp t0 t1 res
    rw [fanOutParams, List.foldl_cons]
    rw [show List.foldl (fanOutStep false) (fanOutStep false ⟨ws, pp, [t0, t1], res⟩ i) l =
      fanOutParams (fanOutStep false ⟨ws, pp, [t0, t1], res⟩ i) l false from rfl]
    rw [fanOutStep_two, ih]
    rw [fanAppend_cons, fanAppend_cons]
    simp [List.append_assoc]

theorem fanAppend_name (l : List ParamSpec) (t : PipelineTask) :
    (fanAppend l t).name = t.name := rfl

theorem fanAppend_runAfter (l : List ParamSpec) (t : PipelineTask) :
    (fanAppend l t).runAfter = t.runAfter := rfl

theorem fanAppend_taskSpec (l : List ParamSpec) (t : PipelineTask) :
    (fanAppend l t).taskSpec = t.taskSpec := rfl

theorem fanAppend_params (l : List ParamSpec) (t : PipelineTask) :
    (fanAppend l t).params = t.params ++ l.map (fun i => ⟨i.name, fanOutValue i⟩) := rfl

/-- The task list of the assembled graph: post-build first, then the
build task (delegated or direct), then — when generated — the
preparatory task; each carries the fanned-out parameter bindings. -/
theorem assemblePipeline_tasks (ext : Ext) (inp : Inputs) (limits : MemLimits) :
    (assemblePipeline ext inp limits).tasks =
      if preBuildImageRequired inp then
        if inp.jbsConfig.spec.containerBuilds then
          [fanAppend (pipelineParamsOf inp) (postBuildPipelineTask ext inp limits),
           fanAppend (pipelineParamsOf inp) (remoteBuildPipelineTask inp),
           fanAppend (pipelineParamsOf inp) (preBuildPipelineTask ext inp limits)]
        else
          [fanAppend (pipelineParamsOf inp) (postBuildPipelineTask ext inp limits),
           fanAppend (pipelineParamsOf inp) (buildPipelineTaskEmbedded ext inp limits),
           fanAppend (pipelineParamsOf inp) (preBuildPipelineTask ext inp limits)]
      else
        if inp.jbsConfig.spec.containerBuilds then
          [fanAppend (pipelineParamsOf inp) (postBuildPipelineTask ext inp limits),
           fanAppend (pipelineParamsOf inp) (remoteBuildPipelineTask inp)]
        else
          [fanAppend (pipelineParamsOf inp) (postBuildPipelineTask ext inp limits),
           fanAppend (pipelineParamsOf inp) (buildPipelineTaskEmbedded ext inp limits)] := by
  by_cases hreq : preBuildImageRequired inp
  · by_cases hcb : inp.jbsConfig.spec.containerBuilds
    · simp only [assemblePipeline, hreq, hcb, if_true]
      simp only [List.singleton_append, List.append_nil]
      rw [fanOutParams_three]
    · simp only [assemblePipeline, hreq, hcb, if_true, if_false, Bool.false_eq_true]
      simp only [List.singleton_append, List.append_nil]
      rw [fanOutParams_three]
  · by_cases hcb : inp.jbsConfig.spec.containerBuilds
    · simp only [assemblePipeline, hreq, hcb, if_true, if_false, Bool.false_eq_true]
      simp only [List.singleton_append, List.append_nil]
      rw [fanOutParams_two]
    · simp only [assemblePipeline, hreq, hcb, if_false, Bool.false_eq_true]
      simp only [List.singleton_append, List.append_nil]
      rw [fanOutParams_two]

theorem ps_of_createPipelineSpec (ext : Ext) (inp : Inputs) (ps : PipelineSpec)
    (hps : (createPipelineSpec ext inp).ps = some ps) :
    ∃ limits, memoryLimits inp.jbsConfig
        (clampedAdditionalMemory inp.recipe inp.systemConfig) = some limits ∧
      ps = assemblePipeline ext inp limits := by
  cases hml : memoryLimits inp.jbsConfig (clampedAdditionalMemory inp.recipe inp.systemConfig) with
  | none => simp [createPipelineSpec, hml] at hps
  | some limits =>
    simp [createPipelineSpec, hml] at hps
    exact ⟨limits, rfl, hps.symm⟩

theorem postBuildPipelineTask_name (ext : Ext) (inp : Inputs) (limits : MemLimits) :
    (postBuildPipelineTask ext inp limits).name = postBuildTaskName := rfl

theorem preBuildPipelineTask_name (ext : Ext) (inp : Inputs) (limits : MemLimits) :
    (preBuildPipelineTask ext inp limits).name = preBuildTaskName := rfl

theorem remoteBuildPipelineTask_name (inp : Inputs) :
    (remoteBuildPipelineTask inp).name = buildTaskName := rfl

theorem buildPipelineTaskEmbedded_name (ext : Ext) (inp : Inputs) (limits : MemLimits) :
    (buildPipelineTaskEmbedded ext inp limits).name = buildTaskName := rfl

theorem post_ne_pre : ¬(postBuildTaskName = preBuildTaskName) := by decide

theorem build_ne_pre : ¬(buildTaskName = preBuildTaskName) := by decide

theorem post_ne_build : ¬(postBuildTaskName = buildTaskName) := by decide

/-! ## C2 — the cache short-circuit -/

/-- C2 (counterexample): an existing-image index that *has* an entry for
the key, with the empty string as its value, still makes the generated
graph contain a preparatory task — refuting "contains a preparatory task
if and only if the index has no entry for the key". -/
theorem c2_counterexample :
    hasImageKey inpEmptyEntry = true ∧
    ((createPipelineSpec extSample inpEmptyEntry).ps.map
      (fun ps => hasTaskNamed ps preBuildTaskName)) = some true := by
  exact ⟨by decide, by decide⟩

/-- C2 (amended): the generated graph contains a preparatory task iff the
existing-image index value for `builderImage+"-"+tool` is empty (no entry,
or an entry mapping to the empty string).  When the value is non-empty,
the build task does not run after a preparatory task and its upstream
digest parameter (`SOURCE_ARTIFACT` for the delegated build task, the
pre-build digest result name otherwise) is that value, literally; when it
is empty the build task runs after `pre-build` and the parameter is the
symbolic result reference. -/
theorem c2_cache_short_circuit (ext : Ext) (inp : Inputs) (ps : PipelineSpec)
    (hps : (createPipelineSpec ext inp).ps = some ps) :
    (hasTaskNamed ps preBuildTaskName = true ↔ preBuildImageLookup inp = []) ∧
    (preBuildImageLookup inp ≠ [] →
      buildTaskRunAfter ps = some [] ∧
      buildTaskDigestValue inp ps = some (preBuildImageLookup inp)) ∧
    (preBuildImageLookup inp = [] →
      buildTaskRunAfter ps = some [preBuildTaskName] ∧
      buildTaskDigestValue inp ps =
        some (gs "$(tasks." ++ preBuildTaskName ++ gs ".results." ++
          pipelineResultPreBuildImageDigest ++ gs ")")) := by
  obtain ⟨limits, hml, hpse⟩ := ps_of_createPipelineSpec ext inp ps hps
  subst hpse
  have htasks := assemblePipeline_tasks ext inp limits
  have hda : ¬(gs "DOCKERFILE" = gs "SOURCE_ARTIFACT") := by decide
  have hia : ¬(gs "IMAGE" = gs "SOURCE_ARTIFACT") := by decide
  by_cases hreq : preBuildImageLookup inp = []
  · have hreqb : preBuildImageRequired inp = true := by
      simp [preBuildImageRequired, hreq]
    rw [hreqb] at htasks
    refine ⟨?_, fun h => absurd hreq h, fun _ => ?_⟩
    · by_cases hcb : inp.jbsConfig.spec.containerBuilds <;>
        simp [hasTaskNamed, htasks, hcb, fanAppend_name, postBuildPipelineTask_name,
          preBuildPipelineTask_name, remoteBuildPipelineTask_name,
          buildPipelineTaskEmbedded_name, post_ne_pre, build_ne_pre, hreq]
    · by_cases hcb : inp.jbsConfig.spec.containerBuilds
      · constructor
        · simp [buildTaskRunAfter, findTask, htasks, hcb, List.find?, fanAppend_name,
            postBuildPipelineTask_name, remoteBuildPipelineTask_name, post_ne_build,
            fanAppend_runAfter, remoteBuildPipelineTask, runAfterOf, hreqb]
        · simp [buildTaskDigestValue, findTask, htasks, hcb, List.find?, fanAppend_name,
            postBuildPipelineTask_name, remoteBuildPipelineTask_name, post_ne_build,
            fanAppend_params, remoteBuildPipelineTask, buildDigestParamName,
            preBuildImageOf, hreqb, hda, hia]
      · constructor
        · simp [buildTaskRunAfter, findTask, htasks, hcb, List.find?, fanAppend_name,
            postBuildPipelineTask_name, buildPipelineTaskEmbedded_name, post_ne_build,
            fanAppend_runAfter, buildPipelineTaskEmbedded, runAfterOf, hreqb]
        · simp [buildTaskDigestValue, findTask, htasks, hcb, List.find?, fanAppend_name,
            postBuildPipelineTask_name, buildPipelineTaskEmbedded_name, post_ne_build,
            fanAppend_params, buildPipelineTaskEmbedded, buildDigestParamName,
            preBuildImageOf, hreqb]
  · have hreqb : preBuildImageRequired inp = false := by
      simp [preBuildImageRequired, hreq]
    rw [hreqb] at htasks
    simp only [Bool.false_eq_true, if_false] at htasks
    refine ⟨?_, fun _ => ?_, fun h => absurd h hreq⟩
    · by_cases hcb : inp.jbsConfig.spec.containerBuilds <;>
        simp [hasTaskNamed, htasks, hcb, fanAppend_name, postBuildPipelineTask_name,
          remoteBuildPipelineTask_name, buildPipelineTaskEmbedded_name, post_ne_pre,
          build_ne_pre, hreq]
    · by_cases hcb : inp.jbsConfig.spec.containerBuilds
      · constructor
        · simp [buildTaskRunAfter, findTask, htasks, hcb, List.find?, fanAppend_name,
            postBuildPipelineTask_name, remoteBuildPipelineTask_name, post_ne_build,
            fanAppend_runAfter, remoteBuildPipelineTask, runAfterOf, hreqb]
        · simp [buildTaskDigestValue, findTask, htasks, hcb, List.find?, fanAppend_name,
            postBuildPipelineTask_name, remoteBuildPipelineTask_name, post_ne_build,
            fanAppend_params, remoteBuildPipelineTask, buildDigestParamName,
            preBuildImageOf, hreqb, hda, hia]
      · constructor
        · simp [buildTaskRunAfter, findTask, htasks, hcb, List.find?, fanAppend_name,
            postBuildPipelineTask_name, buildPipelineTaskEmbedded_name, post_ne_build,
            fanAppend_runAfter, buildPipelineTaskEmbedded, runAfterOf, hreqb]
        · simp [buildTaskDigestValue, findTask, htasks, hcb, List.find?, fanAppend_name,
            postBuildPipelineTask_name, buildPipelineTaskEmbedded_name, post_ne_build,
            fanAppend_params, buildPipelineTaskEmbedded, buildDigestParamName,
            preBuildImageOf, hreqb]

theorem c2_cache_short_circuit_witness :
    (createPipelineSpec extSample inpHit).ps = some (assemblePipeline extSample inpHit memLimitsSample) ∧
    preBuildImageLookup inpHit ≠ [] ∧
    (hasTaskNamed (assemblePipeline extSample inpHit memLimitsSample) preBuildTaskName = true ↔
      preBuildImageLookup inpHit = []) ∧
    (buildTaskRunAfter (assemblePipeline extSample inpHit memLimitsSample) = some [] ∧
      buildTaskDigestValue inpHit (assemblePipeline extSample inpHit memLimitsSample) =
        some (preBuildImageLookup inpHit)) := by
  have h := c2_cache_short_circuit extSample inpHit
    (assemblePipeline extSample inpHit memLimitsSample) (by decide)
  exact ⟨by decide, by decide, h.1, h.2.1 (by decide)⟩

/-! ## C5 — the parameter fan-out -/

/-- C5 (counterexample): with container builds enabled, the build stage
is a remote task reference carrying no parameter declaration in the plan
(`taskSpec` is absent), yet the fan-out loop still appends every declared
pipeline-level parameter to it — here the `JAVA_VERSION` binding —
refuting "…and to no stage that does not declare it, including when the
build stage is the delegated remote task reference". -/
theorem c5_counterexample :
    ((createPipelineSpec extSample inpCB).ps.map (fun ps =>
      (findTask ps buildTaskName).map (fun t =>
        (t.taskSpec.isNone, t.params.any (fun p => p.name = pipelineParamJavaVersion))))) =
      some (some (true, true)) := by
  decide

/-- C5 (amended): every declared pipeline-level parameter is appended, in
declaration order, to the parameter list of *every* present stage —
string parameters as a single `$(params.<name>)` value, array parameters
as a full-array `$(params.<name>[*])` expansion (`fanOutValue`).  Every
stage embedded in the plan declares all of them in its task spec; the
delegated (container-builds) build stage carries no declaration at all
yet receives them too. -/
theorem c5_param_fanout (ext : Ext) (inp : Inputs) (ps : PipelineSpec)
    (hps : (createPipelineSpec ext inp).ps = some ps) :
    ∀ t ∈ ps.tasks,
      (∃ pre, t.params = pre ++
        (pipelineParamsOf inp).map (fun i => ⟨i.name, fanOutValue i⟩)) ∧
      (∀ ts, t.taskSpec = some ts → ∀ i ∈ pipelineParamsOf inp, i ∈ ts.params) := by
  obtain ⟨limits, hml, hpse⟩ := ps_of_createPipelineSpec ext inp ps hps
  subst hpse
  have htasks := assemblePipeline_tasks ext inp limits
  have hpost : ∀ t, t = fanAppend (pipelineParamsOf inp) (postBuildPipelineTask ext inp limits) →
      (∃ pre, t.params = pre ++
        (pipelineParamsOf inp).map (fun i => ⟨i.name, fanOutValue i⟩)) ∧
      (∀ ts, t.taskSpec = some ts → ∀ i ∈ pipelineParamsOf inp, i ∈ ts.params) := by
    rintro t rfl
    refine ⟨⟨(postBuildPipelineTask ext inp limits).params, fanAppend_params _ _⟩, ?_⟩
    intro ts hts i hi
    rw [fanAppend_taskSpec] at hts
    have h2 : (postBuildPipelineTask ext inp limits).taskSpec =
        some (postBuildTaskSpec ext inp limits) := rfl
    rw [h2] at hts
    rw [← Option.some.inj hts]
    show i ∈ (postBuildTaskSpec ext inp limits).params
    have h3 : (postBuildTaskSpec ext inp limits).params = pipelineParamsOf inp ++
        [⟨pipelineResultPreBuildImageDigest, ParamType.string, [], none⟩] := rfl
    rw [h3]
    exact List.mem_append_left _ hi
  have hemb : ∀ t, t = fanAppend (pipelineParamsOf inp) (buildPipelineTaskEmbedded ext inp limits) →
      (∃ pre, t.params = pre ++
        (pipelineParamsOf inp).map (fun i => ⟨i.name, fanOutValue i⟩)) ∧
      (∀ ts, t.taskSpec = some ts → ∀ i ∈ pipelineParamsOf inp, i ∈ ts.params) := by
    rintro t rfl
    refine ⟨⟨(buildPipelineTaskEmbedded ext inp limits).params, fanAppend_params _ _⟩, ?_⟩
    intro ts hts i hi
    rw [fanAppend_taskSpec] at hts
    have h2 : (buildPipelineTaskEmbedded ext inp limits).taskSpec =
        some (buildTaskSpecEmbedded ext inp limits) := rfl
    rw [h2] at hts
    rw [← Option.some.inj hts]
    show i ∈ (buildTaskSpecEmbedded ext inp limits).params
    have h3 : (buildTaskSpecEmbedded ext inp limits).params = pipelineParamsOf inp ++
        [⟨pipelineResultPreBuildImageDigest, ParamType.string, [], none⟩] := rfl
    rw [h3]
    exact List.mem_append_left _ hi
  have hrem : ∀ t, t = fanAppend (pipelineParamsOf inp) (remoteBuildPipelineTask inp) →
      (∃ pre, t.params = pre ++
        (pipelineParamsOf inp).map (fun i => ⟨i.name, fanOutValue i⟩)) ∧
      (∀ ts, t.taskSpec = some ts → ∀ i ∈ pipelineParamsOf inp, i ∈ ts.params) := by
    rintro t rfl
    refine ⟨⟨(remoteBuildPipelineTask inp).params, fanAppend_params _ _⟩, ?_⟩
    intro ts hts
    rw [fanAppend_taskSpec] at hts
    exact absurd hts (by simp [remoteBuildPipelineTask])
  have hpre : ∀ t, t = fanAppend (pipelineParamsOf inp) (preBuildPipelineTask ext inp limits) →
      (∃ pre, t.params = pre ++
        (pipelineParamsOf inp).map (fun i => ⟨i.name, fanOutValue i⟩)) ∧
      (∀ ts, t.taskSpec = some ts → ∀ i ∈ pipelineParamsOf inp, i ∈ ts.params) := by
    rintro t rfl
    refine ⟨⟨(preBuildPipelineTask ext inp limits).params, fanAppend_params _ _⟩, ?_⟩
    intro ts hts i hi
    rw [fanAppend_taskSpec] at hts
    have h2 : (preBuildPipelineTask ext inp limits).taskSpec =
        some (buildSetupTaskSpec ext inp limits) := rfl
    rw [h2] at hts
    rw [← Option.some.inj hts]
    show i ∈ (buildSetupTaskSpec ext inp limits).params
    have h3 : (buildSetupTaskSpec ext inp limits).params = pipelineParamsOf inp := rfl
    rw [h3]
    exact hi
  intro t ht
  rw [htasks] at ht
  by_cases hreq : preBuildImageRequired inp
  · rw [hreq, if_pos rfl] at ht
    by_cases hcb : inp.jbsConfig.spec.containerBuilds
    · rw [hcb, if_pos rfl] at ht
      simp only [List.mem_cons, List.not_mem_nil, or_false] at ht
      rcases ht with ht | ht | ht
      · exact hpost t ht
      · exact hrem t ht
      · exact hpre t ht
    · rw [if_neg (by simp [hcb])] at ht
      simp only [List.mem_cons, List.not_mem_nil, or_false] at ht
      rcases ht with ht | ht | ht
      · exact hpost t ht
      · exact hemb t ht
      · exact hpre t ht
  · rw [if_neg (by simp [hreq])] at ht
    by_cases hcb : inp.jbsConfig.spec.containerBuilds
    · rw [hcb, if_pos rfl] at ht
      simp only [List.mem_cons, List.not_mem_nil, or_false] at ht
      rcases ht with ht | ht
      · exact hpost t ht
      · exact hrem t ht
    · rw [if_neg (by simp [hcb])] at ht
      simp only [List.mem_cons, List.not_mem_nil, or_false] at ht
      rcases ht with ht | ht
      · exact hpost t ht
      · exact hemb t ht

theorem c5_param_fanout_witness :
    (createPipelineSpec extSample inpSample).ps = some psSample ∧
    ∀ t ∈ psSample.tasks,
      (∃ pre, t.params = pre ++
        (pipelineParamsOf inpSample).map (fun i => ⟨i.name, fanOutValue i⟩)) ∧
      (∀ ts, t.taskSpec = some ts → ∀ i ∈ pipelineParamsOf inpSample, i ∈ ts.params) :=
  ⟨by decide, c5_param_fanout extSample inpSample psSample (by decide)⟩

/-! ## C1 — script consistency across the four artifacts -/

/-- C1 (counterexample): at a concrete input whose assembled script
contains a substitutable reference, the preparatory stage's `build.sh`
heredoc embeds the assembled script *before* parameter substitution,
while the diagnostic definition (base64) and the portable run-build
script embed the script *after* substitution — two different byte
sequences, so the three artifacts do not contain one identical script
text. -/
theorem c1_counterexample :
    preBuildFirstStepScript (createPipelineSpec extSample inpSample) =
      some (gitScript inpSample.db inpSample.recipe ++ gs "\n" ++
        createBuildScript (assembledBuild extSample inpSample.tool inpSample.recipe)) ∧
    goContains (createPipelineSpec extSample inpSample).df
      (b64 (buildScriptOf extSample inpSample)) = true ∧
    goHasSuffix (createPipelineSpec extSample inpSample).script
      (buildScriptOf extSample inpSample) = true ∧
    assembledBuild extSample inpSample.tool inpSample.recipe ≠
      buildScriptOf extSample inpSample ∧
    goContains ((preBuildFirstStepScript (createPipelineSpec extSample inpSample)).getD [])
      (buildScriptOf extSample inpSample) = false ∧
    goContains (createPipelineSpec extSample inpSample).df
      (b64 (assembledBuild extSample inpSample.tool inpSample.recipe)) = false := by
  exact ⟨by decide, by decide, by decide, by decide, by decide, by decide⟩

/-- C1 (amended): all three embeddings are derived from the one assembled
script: the diagnostic container definition embeds, base64-encoded at its
`build.sh` line, exactly the substituted script; the portable run-build
script is a fixed prelude followed by the same substituted script byte
for byte; the substituted script is `doSubstitution` of the assembled
script; and the task graph's preparatory stage writes the assembled
script itself (pre-substitution) to `build.sh`.  The three artifacts
contain the identical byte sequence exactly when substitution leaves the
assembled script unchanged. -/
theorem c1_script_consistency (ext : Ext) (inp : Inputs)
    (hok : (createPipelineSpec ext inp).err = false) :
    (gs "\nRUN echo " ++ b64 (buildScriptOf ext inp) ++
      gs " | base64 -d >/var/workdir/build.sh") <:+: (createPipelineSpec ext inp).df ∧
    (createPipelineSpec ext inp).script =
      gs "#!/bin/sh\n" ++ envVarsOf inp ++ gs "\nset -- \"$@\" " ++ cmdArgsOf inp ++
        gs "\n\n" ++ buildScriptOf ext inp ∧
    buildScriptOf ext inp =
      doSubstitution (assembledBuild ext inp.tool inp.recipe) inp.paramValues inp.commitTime
        (buildReposOf inp.recipe) ∧
    (preBuildImageRequired inp = true →
      preBuildFirstStepScript (createPipelineSpec ext inp) =
        some (gitScript inp.db inp.recipe ++ gs "\n" ++
          createBuildScript (assembledBuild ext inp.tool inp.recipe))) := by
  cases hml : memoryLimits inp.jbsConfig (clampedAdditionalMemory inp.recipe inp.systemConfig) with
  | none =>
    exfalso
    simp [createPipelineSpec, hml] at hok
  | some limits =>
    have hdf : (createPipelineSpec ext inp).df = dfOf ext inp := by
      simp [createPipelineSpec, hml]
    have hscript : (createPipelineSpec ext inp).script = konfluxScriptOf ext inp := by
      simp [createPipelineSpec, hml]
    have hpsv : (createPipelineSpec ext inp).ps = some (assemblePipeline ext inp limits) := by
      simp [createPipelineSpec, hml]
    refine ⟨?_, ?_, rfl, ?_⟩
    · rw [hdf]
      refine ⟨gs "FROM " ++ inp.buildRequestProcessorImage ++ gs " AS build-request-processor" ++
        gs "\nFROM " ++
        replaceAll inp.buildRequestProcessorImage (gs "hacbs-jvm-build-request-processor")
          (gs "hacbs-jvm-cache") ++
        gs " AS cache" ++
        gs "\nFROM " ++ inp.recipe.image ++
        gs "\nUSER 0" ++
        gs "\nWORKDIR /var/workdir" ++
        gs "\nENV CACHE_URL=" ++
        doSubstitution (paramRef pipelineParamCacheUrl) inp.paramValues inp.commitTime
          (buildReposOf inp.recipe) ++
        gs "\nRUN mkdir -p /var/workdir/software/settings /original-content/marker" ++
        gs "\nCOPY --from=build-request-processor /deployments/ /var/workdir/software/build-request-processor" ++
        gs "\nCOPY --from=build-request-processor /lib/jvm/jre-17 /var/workdir/software/system-java" ++
        gs "\nCOPY --from=build-request-processor /etc/java/java-17-openjdk /etc/java/java-17-openjdk" ++
        gs "\nCOPY --from=cache /deployments/ /var/workdir/software/cache" ++
        gs "\nRUN " ++
        doSubstitution (gitScript inp.db inp.recipe) inp.paramValues inp.commitTime
          (buildReposOf inp.recipe) ++
        gs "\nRUN echo " ++ b64 startCacheScript ++
        gs " | base64 -d >/var/workdir/start-cache.sh" ++
        gs "\nRUN echo " ++ b64 (preprocessorScriptOf inp) ++
        gs " | base64 -d >/var/workdir/preprocessor.sh",
        gs "\nRUN echo " ++ b64 (runFullBuildScript inp) ++
        gs " | base64 -d >/var/workdir/run-full-build.sh" ++
        gs "\nRUN echo " ++ b64 ext.dockerfileEntryScript ++
        gs " | base64 -d >/var/workdir/entry-script.sh" ++
        gs "\nRUN chmod +x /var/workdir/*.sh" ++
        gs "\nCMD [ \"/bin/bash\", \"/var/workdir/entry-script.sh\" ]", ?_⟩
      simp [dfOf, List.append_assoc]
    · rw [hscript]
      rfl
    · intro hreq
      have htasks := assemblePipeline_tasks ext inp limits
      rw [hreq, if_pos rfl] at htasks
      by_cases hcb : inp.jbsConfig.spec.containerBuilds
      · rw [hcb, if_pos rfl] at htasks
        simp [preBuildFirstStepScript, hpsv, findTask, htasks, List.find?, fanAppend_name,
          postBuildPipelineTask_name, remoteBuildPipelineTask_name, preBuildPipelineTask_name,
          post_ne_pre, build_ne_pre, fanAppend_taskSpec, preBuildPipelineTask,
          buildSetupTaskSpec]
      · rw [if_neg (by simp [hcb])] at htasks
        simp [preBuildFirstStepScript, hpsv, findTask, htasks, List.find?, fanAppend_name,
          postBuildPipelineTask_name, buildPipelineTaskEmbedded_name, preBuildPipelineTask_name,
          post_ne_pre, build_ne_pre, fanAppend_taskSpec, preBuildPipelineTask,
          buildSetupTaskSpec]

theorem c1_script_consistency_witness :
    (gs "\nRUN echo " ++ b64 (buildScriptOf extSample inpSample) ++
      gs " | base64 -d >/var/workdir/build.sh") <:+:
        (createPipelineSpec extSample inpSample).df ∧
    (createPipelineSpec extSample inpSample).script =
      gs "#!/bin/sh\n" ++ envVarsOf inpSample ++ gs "\nset -- \"$@\" " ++
        cmdArgsOf inpSample ++ gs "\n\n" ++ buildScriptOf extSample inpSample ∧
    buildScriptOf extSample inpSample =
      doSubstitution (assembledBuild extSample inpSample.tool inpSample.recipe)
        inpSample.paramValues inpSample.commitTime (buildReposOf inpSample.recipe) ∧
    (preBuildImageRequired inpSample = true →
      preBuildFirstStepScript (createPipelineSpec extSample inpSample) =
        some (gitScript inpSample.db inpSample.recipe ++ gs "\n" ++
          createBuildScript (assembledBuild extSample inpSample.tool inpSample.recipe))) :=
  c1_script_consistency extSample inpSample (by decide)

end JBS
